import Mathlib

/-!
# gamer-messenger: session registry, message fan-out and signaling relay

A shallow embedding of the server core of the repository
(`src/server/index.js`, `src/server/database.js`, `src/server/webrtc.js`).

* The SQLite store is a record of three tables, each a list of rows in
  insertion order.  Every store call of `database.js` is a pure function on
  that record; whether a call rejects is decided by the environment
  (`Faults`), because the handlers of `index.js` branch on it.
* `connectedUsers` is a JavaScript `Map`, embedded as an association list in
  insertion order with the operations `set`, `get`, `has`, `delete`.
* A socket handler is embedded as a function from the server state to an
  `Outcome`: the next state, the list of outbound deliveries, whether the
  handler's `catch` block logged an error and whether an exception escaped
  the handler.  A handler runs to completion before the next event is taken.
* The transport primitives of socket.io (`io.emit`, `socket.emit`,
  `socket.to(room).emit`, `socket.broadcast.emit`) are embedded by their
  documented delivery sets over the list of connected sockets.  A socket is
  a member of exactly one room, the one named by its own id: the source
  never calls `socket.join`.
* The media rooms of `WebRTCManager` are a second `Map`, from room id to a
  `Set` of user ids, with `createMediaRoom`, `removeMediaRoom`,
  `joinMediaRoom` and `leaveMediaRoom` as functions on it.
-/

namespace Messenger

/-! ## Values -/

/-- Client-supplied JSON value that the server passes through unread
(SDP offer or answer, ICE candidate, media flags). -/
abbrev Json := String

/-- A socket.io room name, which is also what `data.target` can hold: a
JavaScript number or a string.  Identity ids are numbers (`INTEGER PRIMARY
KEY`), socket ids are strings. -/
inductive Room where
  | num (n : Nat)
  | str (s : String)
  deriving DecidableEq, Repr

/-- The object stored in `socket.user` by the `authenticate` handler. -/
structure User where
  id : Nat
  username : String
  avatar : String
  deriving DecidableEq, Repr

/-- A connected socket: its id and the `socket.user` property (unset until
the socket authenticates). -/
structure Socket where
  id : String
  user : Option User
  deriving DecidableEq, Repr

/-- A value of the `connectedUsers` map: `{ socketId, user }`. -/
structure Session where
  socketId : String
  user : User
  deriving DecidableEq, Repr

/-! ## The store (`database.js`) -/

/-- Row of table `users`. -/
structure UserRow where
  id : Nat
  username : String
  password : String
  avatar : String
  status : String
  last_seen : Nat
  created_at : Nat
  deriving DecidableEq, Repr

/-- Row of table `messages`. -/
structure MessageRow where
  id : Nat
  user_id : Nat
  channel_id : String
  message : String
  type : String
  created_at : Nat
  deriving DecidableEq, Repr

/-- Row of table `channels`. -/
structure ChannelRow where
  id : Nat
  name : String
  type : String
  created_by : Option Nat
  created_at : Nat
  deriving DecidableEq, Repr

/-- The three tables created by `initDatabase`. -/
structure Database where
  users : List UserRow
  messages : List MessageRow
  channels : List ChannelRow
  deriving DecidableEq, Repr

/-- The store right after `initDatabase` on a fresh file. -/
def Database.empty : Database := { users := [], messages := [], channels := [] }

/-- The row id that `INTEGER PRIMARY KEY AUTOINCREMENT` assigns to the next
inserted row (`this.lastID`): one more than the largest id in the table.
Rows are never deleted by the server. -/
def lastID (ids : List Nat) : Nat := ids.foldr max 0 + 1

/-- A row of `getOnlineUsers`: `SELECT id, username, avatar, status`. -/
structure OnlineUser where
  id : Nat
  username : String
  avatar : String
  status : String
  deriving DecidableEq, Repr

/-- A row of `getChannelMessages`: `SELECT m.*, u.username, u.avatar`. -/
structure HistoryRow where
  id : Nat
  user_id : Nat
  channel_id : String
  message : String
  type : String
  created_at : Nat
  username : String
  avatar : String
  deriving DecidableEq, Repr

/-- The value `createChannel` resolves with: `{ id: this.lastID, name, type }`. -/
structure ChannelDesc where
  id : Nat
  name : String
  type : String
  deriving DecidableEq, Repr

/-- Stand-in for `bcrypt.hash(password, 10)`. -/
def bcryptHash (password : String) : String := "$2a$10$" ++ password

/-- Stand-in for `bcrypt.compare(password, hash)`. -/
def bcryptCompare (password hash : String) : Bool := hash == bcryptHash password

/-- Method `Database.createUser`: `INSERT INTO users (username, password)`.  The
insert is refused (`SQLITE_CONSTRAINT`) when the username is taken
(`username TEXT UNIQUE`); otherwise the row gets the column defaults. -/
def createUser (db : Database) (now : Nat) (username password : String) :
    Option (Database × Nat) :=
  if db.users.any (fun u => u.username == username) then none
  else
    let id := lastID (db.users.map (fun u => u.id))
    some ({ db with users := db.users ++
      [{ id := id, username := username, password := bcryptHash password,
         avatar := "default.png", status := "online",
         last_seen := now, created_at := now }] }, id)

/-- Method `Database.findUser`: `SELECT * FROM users WHERE username = ?` through
`db.get`, which yields the first matching row or `undefined`. -/
def findUser (db : Database) (username : String) : Option UserRow :=
  db.users.find? (fun u => u.username == username)

/-- Method `Database.validateUser`. -/
def validateUser (db : Database) (username password : String) : Option UserRow :=
  match findUser db username with
  | none => none
  | some user => if bcryptCompare password user.password then some user else none

/-- Method `Database.updateUserStatus`:
`UPDATE users SET status = ?, last_seen = CURRENT_TIMESTAMP WHERE id = ?`. -/
def updateUserStatus (db : Database) (now : Nat) (userId : Nat) (status : String) :
    Database :=
  { db with users := db.users.map (fun u =>
      if u.id = userId then { u with status := status, last_seen := now } else u) }

/-- Method `Database.getOnlineUsers`:
`SELECT id, username, avatar, status FROM users WHERE status != "offline"
ORDER BY username`. -/
def getOnlineUsers (db : Database) : List OnlineUser :=
  ((db.users.filter (fun u => u.status != "offline")).map (fun u =>
      ({ id := u.id, username := u.username, avatar := u.avatar,
         status := u.status } : OnlineUser))).insertionSort
    (fun a b => a.username ≤ b.username)

/-- Method `Database.saveMessage`: `INSERT INTO messages (user_id, channel_id,
message, type)`, resolving with `this.lastID`.  The parameter default
`type = 'text'` applies when the caller passes `undefined`. -/
def saveMessage (db : Database) (now : Nat) (userId : Nat) (channelId message : String)
    (type : Option String) : Database × Nat :=
  let id := lastID (db.messages.map (fun m => m.id))
  ({ db with messages := db.messages ++
      [{ id := id, user_id := userId, channel_id := channelId, message := message,
         type := type.getD "text", created_at := now }] }, id)

/-- The `FROM messages m JOIN users u ON m.user_id = u.id WHERE
m.channel_id = ?` part of `getChannelMessages`. -/
def joinChannelMessages (db : Database) (channelId : String) : List HistoryRow :=
  (db.messages.filter (fun m => m.channel_id == channelId)).flatMap (fun m =>
    (db.users.filter (fun u => u.id == m.user_id)).map (fun u =>
      ({ id := m.id, user_id := m.user_id, channel_id := m.channel_id,
         message := m.message, type := m.type, created_at := m.created_at,
         username := u.username, avatar := u.avatar } : HistoryRow)))

/-- Method `Database.getChannelMessages`: the join above, `ORDER BY m.created_at
DESC LIMIT ?`, then `rows.reverse()`.  The argument `limit` ranges over the
non-negative integers; the caller in `index.js` omits it and gets the
default `100`.  Rows with equal `created_at` are kept in table order by the sort
used here; SQLite leaves their order open. -/
def getChannelMessages (db : Database) (channelId : String) (limit : Nat) :
    List HistoryRow :=
  (((joinChannelMessages db channelId).insertionSort
      (fun a b => b.created_at ≤ a.created_at)).take limit).reverse

/-- Method `Database.createChannel`: `INSERT INTO channels (name, type, created_by)`,
resolving with `{ id: this.lastID, name, type }`. -/
def createChannel (db : Database) (now : Nat) (name type : String) (createdBy : Nat) :
    Database × ChannelDesc :=
  let id := lastID (db.channels.map (fun c => c.id))
  ({ db with channels := db.channels ++
      [{ id := id, name := name, type := type, created_by := some createdBy,
         created_at := now }] }, { id := id, name := name, type := type })

/-- Method `Database.getChannels`: `SELECT * FROM channels ORDER BY name`. -/
def getChannels (db : Database) : List ChannelRow :=
  db.channels.insertionSort (fun a b => a.name ≤ b.name)

/-! ## The JavaScript `Map` behind `connectedUsers` -/

/-- Operation `Map.prototype.set`: replaces the value of an existing key in
place, appends a new key at the end. -/
def mapSet {ν : Type} (m : List (Nat × ν)) (k : Nat) (v : ν) : List (Nat × ν) :=
  match m with
  | [] => [(k, v)]
  | (k0, v0) :: rest => if k0 = k then (k, v) :: rest else (k0, v0) :: mapSet rest k v

/-- Operation `Map.prototype.get`. -/
def mapGet {ν : Type} (m : List (Nat × ν)) (k : Nat) : Option ν :=
  match m with
  | [] => none
  | (k0, v0) :: rest => if k0 = k then some v0 else mapGet rest k

/-- Operation `Map.prototype.has`. -/
def mapHas {ν : Type} (m : List (Nat × ν)) (k : Nat) : Bool :=
  (mapGet m k).isSome

/-- Operation `Map.prototype.delete`. -/
def mapDelete {ν : Type} (m : List (Nat × ν)) (k : Nat) : List (Nat × ν) :=
  m.filter (fun e => e.1 != k)

/-! ## Server state and outbound events -/

/-- The state of a `MessengerServer`: the store, the sockets currently
connected to the default namespace, and the `connectedUsers` map. -/
structure ServerState where
  db : Database
  sockets : List Socket
  connectedUsers : List (Nat × Session)
  deriving DecidableEq, Repr

/-- The state built by the constructor, over a fresh store. -/
def ServerState.init : ServerState :=
  { db := Database.empty, sockets := [], connectedUsers := [] }

/-- The `messageData` object broadcast by the `send-message` handler. -/
structure MessageData where
  id : Nat
  user_id : Nat
  channel_id : String
  message : String
  type : Option String
  username : String
  avatar : String
  created_at : String
  deriving DecidableEq, Repr

/-- An outbound event with its payload. -/
inductive Payload where
  | usersUpdate (onlineUsers : List OnlineUser)
  | channelsList (channels : List ChannelRow)
  | newMessage (messageData : MessageData)
  | channelCreated (channel : ChannelDesc)
  | messagesHistory (channelId : String) (messages : List HistoryRow)
  | webrtcOffer (offer : Json) (caller : Nat) (callerName : String)
  | webrtcAnswer (answer : Json) (answerer : Nat)
  | webrtcIceCandidate (candidate : Json)
  | userMediaUpdate (userId : Nat) ( audio : Json) (video : Json)
  | userScreenShareStarted (userId : Nat) (userName : String)
  | userScreenShareStopped (userId : Nat)
  | userVoiceActivity (userId : Nat) (isSpeaking : Json)
  deriving DecidableEq, Repr

/-- One outbound event handed to the transport of one socket. -/
structure Delivery where
  socketId : String
  payload : Payload
  deriving DecidableEq, Repr

/-- Which store calls reject while a handler runs. -/
structure Faults where
  findUser : Bool
  updateUserStatus : Bool
  getOnlineUsers : Bool
  getChannels : Bool
  saveMessage : Bool
  createChannel : Bool
  getChannelMessages : Bool
  createUser : Bool
  deriving DecidableEq, Repr

/-- Every store call resolves. -/
def Faults.none : Faults :=
  { findUser := false, updateUserStatus := false, getOnlineUsers := false,
    getChannels := false, saveMessage := false, createChannel := false,
    getChannelMessages := false, createUser := false }

/-- What a handler reads from outside the server while it runs: the outcome
of its store calls, the store clock (`CURRENT_TIMESTAMP`) and the server
clock (`new Date().toISOString()`). -/
structure Env where
  faults : Faults
  now : Nat
  date : String
  deriving DecidableEq, Repr

/-- What running one handler produces. -/
structure Outcome where
  state : ServerState
  out : List Delivery
  logged : Bool
  thrown : Bool
  deriving DecidableEq, Repr

/-- The `socket.user` property of the socket with id `sid`. -/
def socketUser (st : ServerState) (sid : String) : Option User :=
  match st.sockets.find? (fun t => t.id == sid) with
  | some t => t.user
  | none => none

/-- Assignment `socket.user = user` on the socket with id `sid`. -/
def setSocketUser (sockets : List Socket) (sid : String) (user : User) : List Socket :=
  sockets.map (fun t => if t.id = sid then { t with user := some user } else t)

/-- Transport primitive `io.emit`: every connected socket. -/
def ioEmit (st : ServerState) (payload : Payload) : List Delivery :=
  st.sockets.map (fun t => { socketId := t.id, payload := payload })

/-- Transport primitive `socket.emit`: the socket itself. -/
def socketEmit (sid : String) (payload : Payload) : List Delivery :=
  [{ socketId := sid, payload := payload }]

/-- Transport primitive `socket.to(room).emit`: every connected socket in
`room` except the sender.  A socket is in the room named by its own id. -/
def socketToEmit (st : ServerState) (sid : String) (room : Room) (payload : Payload) :
    List Delivery :=
  (st.sockets.filter (fun t => t.id != sid && Room.str t.id == room)).map
    (fun t => { socketId := t.id, payload := payload })

/-- Transport primitive `socket.broadcast.emit`: every connected socket
except the sender. -/
def socketBroadcastEmit (st : ServerState) (sid : String) (payload : Payload) :
    List Delivery :=
  (st.sockets.filter (fun t => t.id != sid)).map
    (fun t => { socketId := t.id, payload := payload })

/-! ## Socket handlers (`index.js`, `setupSocketHandlers`) -/

/-- The `data` argument of `send-message`: `{ channelId, message, type }`. -/
structure SendMessageData where
  channelId : String
  message : String
  type : Option String
  deriving DecidableEq, Repr

/-- The `data` argument of `create-channel`: `{ name, type }`. -/
structure CreateChannelData where
  name : String
  type : String
  deriving DecidableEq, Repr

/-- Handler of `authenticate`.  In source order: `findUser`; when a row is
found, assign `socket.user`, `connectedUsers.set`, `updateUserStatus`,
`getOnlineUsers`, `io.emit('users-update')`, `getChannels`,
`socket.emit('channels-list')`.  A rejected store call jumps to the `catch`
block, which logs; what was done before stays done. -/
def onAuthenticate (st : ServerState) (env : Env) (sid : String) (username : String) :
    Outcome :=
  if env.faults.findUser then { state := st, out := [], logged := true, thrown := false }
  else
    match findUser st.db username with
    | none => { state := st, out := [], logged := false, thrown := false }
    | some user =>
      let sockUser : User :=
        { id := user.id, username := user.username, avatar := user.avatar }
      let st1 : ServerState :=
        { st with
          sockets := setSocketUser st.sockets sid sockUser
          connectedUsers :=
            mapSet st.connectedUsers user.id { socketId := sid, user := sockUser } }
      if env.faults.updateUserStatus then
        { state := st1, out := [], logged := true, thrown := false }
      else
        let st2 : ServerState :=
          { st1 with db := updateUserStatus st1.db env.now user.id "online" }
        if env.faults.getOnlineUsers then
          { state := st2, out := [], logged := true, thrown := false }
        else
          let out1 := ioEmit st2 (.usersUpdate (getOnlineUsers st2.db))
          if env.faults.getChannels then
            { state := st2, out := out1, logged := true, thrown := false }
          else
            { state := st2
              out := out1 ++ socketEmit sid (.channelsList (getChannels st2.db))
              logged := false, thrown := false }

/-- Handler of `send-message`: returns at once when `socket.user` is unset;
otherwise `saveMessage`, then `io.emit('new-message', messageData)`. -/
def onSendMessage (st : ServerState) (env : Env) (sid : String) (data : SendMessageData) :
    Outcome :=
  match socketUser st sid with
  | none => { state := st, out := [], logged := false, thrown := false }
  | some user =>
    if env.faults.saveMessage then
      { state := st, out := [], logged := true, thrown := false }
    else
      let saved := saveMessage st.db env.now user.id data.channelId data.message data.type
      let st1 : ServerState := { st with db := saved.1 }
      let messageData : MessageData :=
        { id := saved.2, user_id := user.id, channel_id := data.channelId,
          message := data.message, type := data.type, username := user.username,
          avatar := user.avatar, created_at := env.date }
      { state := st1, out := ioEmit st1 (.newMessage messageData),
        logged := false, thrown := false }

/-- Handler of `create-channel`: returns at once when `socket.user` is
unset; otherwise `createChannel`, then `io.emit('channel-created', channel)`. -/
def onCreateChannel (st : ServerState) (env : Env) (sid : String)
    (data : CreateChannelData) : Outcome :=
  match socketUser st sid with
  | none => { state := st, out := [], logged := false, thrown := false }
  | some user =>
    if env.faults.createChannel then
      { state := st, out := [], logged := true, thrown := false }
    else
      let created := createChannel st.db env.now data.name data.type user.id
      let st1 : ServerState := { st with db := created.1 }
      { state := st1, out := ioEmit st1 (.channelCreated created.2),
        logged := false, thrown := false }

/-- Handler of `get-messages`: `getChannelMessages(channelId)` with the
default limit, then `socket.emit('messages-history', { channelId, messages })`.
The handler does not read `socket.user`. -/
def onGetMessages (st : ServerState) (env : Env) (sid : String) (channelId : String) :
    Outcome :=
  if env.faults.getChannelMessages then
    { state := st, out := [], logged := true, thrown := false }
  else
    { state := st
      out := socketEmit sid (.messagesHistory channelId (getChannelMessages st.db channelId 100))
      logged := false, thrown := false }

/-- Handler of `disconnect`.  The transport has already removed the socket
from the namespace when the handler runs, so `io.emit` does not reach it;
the closure still holds `socket.user`.  In source order, when `socket.user`
is set: `updateUserStatus(…, 'offline')`, `connectedUsers.delete`,
`getOnlineUsers`, `io.emit('users-update')`. -/
def onDisconnect (st : ServerState) (env : Env) (sid : String) : Outcome :=
  let st0 : ServerState := { st with sockets := st.sockets.filter (fun t => t.id != sid) }
  match socketUser st sid with
  | none => { state := st0, out := [], logged := false, thrown := false }
  | some user =>
    if env.faults.updateUserStatus then
      { state := st0, out := [], logged := true, thrown := false }
    else
      let st1 : ServerState :=
        { st0 with
          db := updateUserStatus st0.db env.now user.id "offline"
          connectedUsers := mapDelete st0.connectedUsers user.id }
      if env.faults.getOnlineUsers then
        { state := st1, out := [], logged := true, thrown := false }
      else
        { state := st1, out := ioEmit st1 (.usersUpdate (getOnlineUsers st1.db)),
          logged := false, thrown := false }

/-! ## Signaling (`webrtc.js`, `handleSignaling`) -/

/-- The seven inbound signaling events with their arguments. -/
inductive Signal where
  | webrtcOffer (target : Room) (offer : Json)
  | webrtcAnswer (target : Room) (answer : Json)
  | webrtcIceCandidate (target : Room) (candidate : Json)
  | mediaToggle ( audio : Json) (video : Json)
  | startScreenShare
  | stopScreenShare
  | voiceActivity (isSpeaking : Json)
  deriving DecidableEq, Repr

/-- The outcome of a handler that dereferences an unset `socket.user`: a
`TypeError` leaves the handler, which has no `try`, and nothing is emitted. -/
def typeError (st : ServerState) : Outcome :=
  { state := st, out := [], logged := false, thrown := true }

/-- The handlers installed by `WebRTCManager.handleSignaling`.  The directed
kinds emit through `socket.to(data.target)`, the others through
`socket.broadcast`; every kind but `webrtc-ice-candidate` reads
`socket.user.id` while building the payload. -/
def handleSignaling (st : ServerState) (sid : String) (sig : Signal) : Outcome :=
  match sig with
  | .webrtcOffer target offer =>
    match socketUser st sid with
    | none => typeError st
    | some user =>
      { state := st
        out := socketToEmit st sid target (.webrtcOffer offer user.id user.username)
        logged := false, thrown := false }
  | .webrtcAnswer target answer =>
    match socketUser st sid with
    | none => typeError st
    | some user =>
      { state := st, out := socketToEmit st sid target (.webrtcAnswer answer user.id)
        logged := false, thrown := false }
  | .webrtcIceCandidate target candidate =>
    { state := st, out := socketToEmit st sid target (.webrtcIceCandidate candidate)
      logged := false, thrown := false }
  | .mediaToggle a v =>
    match socketUser st sid with
    | none => typeError st
    | some user =>
      { state := st, out := socketBroadcastEmit st sid (.userMediaUpdate user.id a v)
        logged := false, thrown := false }
  | .startScreenShare =>
    match socketUser st sid with
    | none => typeError st
    | some user =>
      { state := st
        out := socketBroadcastEmit st sid (.userScreenShareStarted user.id user.username)
        logged := false, thrown := false }
  | .stopScreenShare =>
    match socketUser st sid with
    | none => typeError st
    | some user =>
      { state := st, out := socketBroadcastEmit st sid (.userScreenShareStopped user.id)
        logged := false, thrown := false }
  | .voiceActivity isSpeaking =>
    match socketUser st sid with
    | none => typeError st
    | some user =>
      { state := st
        out := socketBroadcastEmit st sid (.userVoiceActivity user.id isSpeaking)
        logged := false, thrown := false }

/-! ## HTTP routes (`index.js`, `setupRoutes`) and the event loop -/

/-- The value of `username.length`: the number of UTF-16 code units. -/
def jsLength (s : String) : Nat :=
  (s.toList.map (fun c => if c.toNat < 65536 then 1 else 2)).sum

/-- Route `POST /api/register`: the new state and the HTTP status. -/
def apiRegister (st : ServerState) (env : Env) (username password : String) :
    ServerState × Nat :=
  if username.isEmpty || password.isEmpty then (st, 400)
  else if jsLength username < 3 then (st, 400)
  else if env.faults.createUser then (st, 500)
  else
    match createUser st.db env.now username password with
    | none => (st, 400)
    | some created => ({ st with db := created.1 }, 200)

/-- Route `POST /api/login`: the new state and the HTTP status. -/
def apiLogin (st : ServerState) (env : Env) (username password : String) :
    ServerState × Nat :=
  if username.isEmpty || password.isEmpty then (st, 400)
  else if env.faults.findUser then (st, 500)
  else
    match validateUser st.db username password with
    | none => (st, 401)
    | some user =>
      if env.faults.updateUserStatus then (st, 500)
      else ({ st with db := updateUserStatus st.db env.now user.id "online" }, 200)

/-- What the server reacts to. -/
inductive Event where
  | register (username password : String)
  | login (username password : String)
  | connection (sid : String)
  | authenticate (sid : String) (username : String)
  | sendMessage (sid : String) (data : SendMessageData)
  | createChannel (sid : String) (data : CreateChannelData)
  | getMessages (sid : String) (channelId : String)
  | signaling (sid : String) (sig : Signal)
  | disconnect (sid : String)
  deriving DecidableEq, Repr

/-- Whether a socket with id `sid` is connected. -/
def isConnected (st : ServerState) (sid : String) : Bool :=
  st.sockets.any (fun t => t.id == sid)

/-- An outcome that leaves the state alone and emits nothing. -/
def idle (st : ServerState) : Outcome :=
  { state := st, out := [], logged := false, thrown := false }

/-- One reaction of the server.  The transport hands out fresh socket ids
and raises socket events only on connected sockets. -/
def step (st : ServerState) (env : Env) (ev : Event) : Outcome :=
  match ev with
  | .register username password => idle (apiRegister st env username password).1
  | .login username password => idle (apiLogin st env username password).1
  | .connection sid =>
    if isConnected st sid then idle st
    else idle { st with sockets := st.sockets ++ [{ id := sid, user := none }] }
  | .authenticate sid username =>
    if isConnected st sid then onAuthenticate st env sid username else idle st
  | .sendMessage sid data =>
    if isConnected st sid then onSendMessage st env sid data else idle st
  | .createChannel sid data =>
    if isConnected st sid then onCreateChannel st env sid data else idle st
  | .getMessages sid channelId =>
    if isConnected st sid then onGetMessages st env sid channelId else idle st
  | .signaling sid sig =>
    if isConnected st sid then handleSignaling st sid sig else idle st
  | .disconnect sid =>
    if isConnected st sid then onDisconnect st env sid else idle st

/-- The state after a sequence of reactions. -/
def run (st : ServerState) (trace : List (Env × Event)) : ServerState :=
  trace.foldl (fun s e => (step s e.1 e.2).state) st

/-- A state the server can be in: one that some sequence of reactions
produces from the initial state. -/
def Reachable (st : ServerState) : Prop :=
  ∃ trace : List (Env × Event), run ServerState.init trace = st

/-- The environment in which every store call resolves. -/
def Env.ok (now : Nat) (date : String) : Env :=
  { faults := Faults.none, now := now, date := date }

/-- The `target` of a directed signaling event (`webrtc-offer`,
`webrtc-answer`, `webrtc-ice-candidate`); the other kinds have none. -/
def Signal.target (sig : Signal) : Option Room :=
  match sig with
  | .webrtcOffer target _ => some target
  | .webrtcAnswer target _ => some target
  | .webrtcIceCandidate target _ => some target
  | _ => none

/-- The broadcast kinds: `media-toggle`, `start-screen-share`,
`stop-screen-share`, `voice-activity`. -/
def Signal.isBroadcast (sig : Signal) : Bool :=
  match sig with
  | .mediaToggle _ _ => true
  | .startScreenShare => true
  | .stopScreenShare => true
  | .voiceActivity _ => true
  | _ => false

/-! ## Media rooms (`webrtc.js`, `createMediaRoom` … `leaveMediaRoom`) -/

/-- The `connections` map of a `WebRTCManager`: room id to the `Set` of the
user ids in the room, both in insertion order.  The second map of the
constructor, `mediaStreams`, is never read or written by the source. -/
structure WebRTCManager where
  connections : List (Room × List Nat)
  deriving DecidableEq, Repr

/-- Call `this.connections.has(roomId)`. -/
def connectionsHas (m : List (Room × List Nat)) (roomId : Room) : Bool :=
  m.any (fun e => e.1 == roomId)

/-- Call `this.connections.get(roomId)`. -/
def connectionsGet (m : List (Room × List Nat)) (roomId : Room) : Option (List Nat) :=
  match m with
  | [] => none
  | (k0, v0) :: rest => if k0 = roomId then some v0 else connectionsGet rest roomId

/-- Call `this.connections.set(roomId, members)`, also the effect of
mutating the `Set` held under `roomId` in place. -/
def connectionsSet (m : List (Room × List Nat)) (roomId : Room) (members : List Nat) :
    List (Room × List Nat) :=
  match m with
  | [] => [(roomId, members)]
  | (k0, v0) :: rest =>
    if k0 = roomId then (roomId, members) :: rest
    else (k0, v0) :: connectionsSet rest roomId members

/-- Call `Set.prototype.add`. -/
def setAdd (members : List Nat) (userId : Nat) : List Nat :=
  if userId ∈ members then members else members ++ [userId]

/-- Call `Set.prototype.delete`. -/
def setDelete (members : List Nat) (userId : Nat) : List Nat :=
  members.filter (fun x => x != userId)

/-- Method `WebRTCManager.createMediaRoom`: `this.connections.set(roomId, new Set())`. -/
def createMediaRoom (w : WebRTCManager) (roomId : Room) : WebRTCManager :=
  { w with connections := connectionsSet w.connections roomId [] }

/-- Method `WebRTCManager.removeMediaRoom`: `this.connections.delete(roomId)`. -/
def removeMediaRoom (w : WebRTCManager) (roomId : Room) : WebRTCManager :=
  { w with connections := w.connections.filter (fun e => e.1 != roomId) }

/-- Method `WebRTCManager.joinMediaRoom`: creates the room when it is
missing, then `this.connections.get(roomId).add(userId)`. -/
def joinMediaRoom (w : WebRTCManager) (roomId : Room) (userId : Nat) : WebRTCManager :=
  let w1 := if connectionsHas w.connections roomId then w else createMediaRoom w roomId
  match connectionsGet w1.connections roomId with
  | none => w1
  | some members =>
    { w1 with connections := connectionsSet w1.connections roomId (setAdd members userId) }

/-- Method `WebRTCManager.leaveMediaRoom`: when the room exists,
`this.connections.get(roomId).delete(userId)`, and the room is removed when
its `size` is `0` afterwards. -/
def leaveMediaRoom (w : WebRTCManager) (roomId : Room) (userId : Nat) : WebRTCManager :=
  if connectionsHas w.connections roomId then
    match connectionsGet w.connections roomId with
    | none => w
    | some members =>
      let w1 : WebRTCManager :=
        { w with connections := connectionsSet w.connections roomId (setDelete members userId) }
      if (setDelete members userId).length = 0 then removeMediaRoom w1 roomId else w1
  else w

/-! ## Classification of events and of runs -/

/-- The two events whose handlers write `connectedUsers`. -/
def Event.isAuthenticateOrDisconnect (ev : Event) : Bool :=
  match ev with
  | .authenticate _ _ => true
  | .disconnect _ => true
  | _ => false

/-- A state reached from the initial state by reactions during which every
store call resolved. -/
def WorkingReachable (st : ServerState) : Prop :=
  ∃ trace : List (Env × Event),
    (∀ e ∈ trace, e.1.faults = Faults.none) ∧ run ServerState.init trace = st

/-- Every row of `users` with id `k` is present and not `offline`: what the
presence payload needs to list identity `k`. -/
def OnlineInStore (db : Database) (k : Nat) : Prop :=
  (∃ row ∈ db.users, row.id = k) ∧ ∀ row ∈ db.users, row.id = k → row.status ≠ "offline"

/-- Every key of `connectedUsers` is an identity that the presence query
lists. -/
def RegistryOnline (st : ServerState) : Prop :=
  ∀ k, mapHas st.connectedUsers k = true → OnlineInStore st.db k

/-! ## Example states used by the closed statements below -/

/-- A working environment at store time `1`. -/
def env1 : Env := Env.ok 1 "2024-01-01T00:00:00.000Z"

/-- Account `alice` exists; sockets `h1` and `h2` are connected and both
have authenticated as `alice`, `h1` first. -/
def twoHandlesTrace : List (Env × Event) :=
  [(env1, .register "alice" "secret"), (env1, .connection "h1"), (env1, .connection "h2"),
   (env1, .authenticate "h1" "alice"), (env1, .authenticate "h2" "alice")]

/-- Accounts `alice` (id 1) and `bob` (id 2) exist.  Socket `h1`
authenticates as `alice`, then as `bob`, then disconnects; socket `h2`
authenticates as `bob`.  The map is left with `alice` on the closed socket
`h1` and `bob` on `h2`. -/
def staleTrace : List (Env × Event) :=
  [(env1, .register "alice" "secret"), (env1, .register "bob" "hunter2"),
   (env1, .connection "h1"), (env1, .connection "h2"),
   (env1, .authenticate "h1" "alice"), (env1, .authenticate "h1" "bob"),
   (env1, .disconnect "h1"), (env1, .authenticate "h2" "bob")]

/-- The scenario input of the spec: `{channelId:"general", message:"hi", type:"text"}`. -/
def hiData : SendMessageData :=
  { channelId := "general", message := "hi", type := some "text" }

/-- A store in which message 2 of channel `general` names an author that
has no row in `users` (SQLite does not enforce the `FOREIGN KEY` clause
unless asked to). -/
def orphanStore : Database :=
  { users := [{ id := 1, username := "alice", password := bcryptHash "secret",
                avatar := "default.png", status := "online", last_seen := 1, created_at := 1 }]
    messages := [{ id := 1, user_id := 1, channel_id := "general", message := "hi",
                   type := "text", created_at := 1 },
                 { id := 2, user_id := 7, channel_id := "general", message := "yo",
                   type := "text", created_at := 5 }]
    channels := [] }

/-- A store with three messages by `alice`, two of them in `general`. -/
def historyStore : Database :=
  { users := [{ id := 1, username := "alice", password := bcryptHash "secret",
                avatar := "default.png", status := "online", last_seen := 1, created_at := 1 }]
    messages := [{ id := 1, user_id := 1, channel_id := "general", message := "a",
                   type := "text", created_at := 3 },
                 { id := 2, user_id := 1, channel_id := "games", message := "b",
                   type := "text", created_at := 4 },
                 { id := 3, user_id := 1, channel_id := "general", message := "c",
                   type := "text", created_at := 9 }]
    channels := [] }

/-- Accounts `alice` (id 1) and `bob` (id 2) exist; `alice` is
authenticated on socket `h1` and `bob` on socket `h2`. -/
def twoUsersTrace : List (Env × Event) :=
  [(env1, .register "alice" "secret"), (env1, .register "bob" "hunter2"),
   (env1, .connection "h1"), (env1, .connection "h2"),
   (env1, .authenticate "h1" "alice"), (env1, .authenticate "h2" "bob")]

/-- Account `alice` exists and is authenticated on socket `h1`; socket `h3`
is connected and has not authenticated. -/
def lurkerTrace : List (Env × Event) :=
  [(env1, .register "alice" "secret"), (env1, .connection "h1"), (env1, .connection "h3"),
   (env1, .authenticate "h1" "alice")]

/-- An environment in which `updateUserStatus` rejects and every other
store call resolves. -/
def envStatusFails : Env :=
  { faults := { Faults.none with updateUserStatus := true }, now := 2,
    date := "2024-01-01T00:00:01.000Z" }

/-- Accounts `alice` (id 1) and `bob` (id 2) exist.  Socket `h1`
authenticates as `alice` and then as `bob`; socket `h2` is connected.  The
map holds `alice` on `h1` and `bob` on `h1`, and `socket.user` of `h1` is
`bob`. -/
def reauthTrace : List (Env × Event) :=
  [(env1, .register "alice" "secret"), (env1, .register "bob" "hunter2"),
   (env1, .connection "h1"), (env1, .connection "h2"),
   (env1, .authenticate "h1" "alice"), (env1, .authenticate "h1" "bob")]

/-- An environment in which `saveMessage` rejects and every other store
call resolves. -/
def envSaveFails : Env :=
  { faults := { Faults.none with saveMessage := true }, now := 2,
    date := "2024-01-01T00:00:01.000Z" }

/-- After `twoHandlesTrace` the newer socket `h2` disconnects: `alice` is no
longer a key of the map, and socket `h1` still carries her identity. -/
def orphanSenderTrace : List (Env × Event) :=
  twoHandlesTrace ++ [(env1, .disconnect "h2")]

/-- Accounts `alice` and `bob` exist; only `alice` has authenticated, on `h1`. -/
def neverConnectedTrace : List (Env × Event) :=
  [(env1, .register "alice" "secret"), (env1, .register "bob" "hunter2"),
   (env1, .connection "h1"), (env1, .authenticate "h1" "alice")]

/-- A manager with one room, `lobby`, holding users 4 and 7. -/
def lobbyManager : WebRTCManager :=
  { connections := [(.str "lobby", [4, 7])] }

/-- Accounts `alice` and `bob` exist, sockets `h1` and `h2` are connected
and `alice` has authenticated on `h1`; `bob` has never opened a session.
Every store call along the way resolved. -/
def presenceTrace : List (Env × Event) :=
  [(env1, .register "alice" "secret"), (env1, .register "bob" "hunter2"),
   (env1, .connection "h1"), (env1, .connection "h2"),
   (env1, .authenticate "h1" "alice")]

/-! ## Lemmas on the map operations -/

theorem mapGet_mapSet_self {ν : Type} (m : List (Nat × ν)) (k : Nat) (v : ν) :
    mapGet (mapSet m k v) k = some v := by
  induction m with
  | nil => simp [mapSet, mapGet]
  | cons e rest ih =>
    obtain ⟨k0, v0⟩ := e
    by_cases h : k0 = k
    · simp [mapSet, mapGet, h]
    · simp [mapSet, mapGet, h, ih]

theorem mapGet_mapSet_other {ν : Type} (m : List (Nat × ν)) (k j : Nat) (v : ν)
    (hkj : j ≠ k) : mapGet (mapSet m k v) j = mapGet m j := by
  induction m with
  | nil => simp [mapSet, mapGet, Ne.symm hkj]
  | cons e rest ih =>
    obtain ⟨k0, v0⟩ := e
    by_cases h : k0 = k
    · subst h
      simp [mapSet, mapGet, Ne.symm hkj]
    · by_cases h2 : k0 = j
      · subst h2
        simp [mapSet, mapGet, hkj]
      · simp [mapSet, mapGet, h, h2, ih]

theorem mapGet_mapDelete_self {ν : Type} (m : List (Nat × ν)) (k : Nat) :
    mapGet (mapDelete m k) k = none := by
  induction m with
  | nil => simp [mapDelete, mapGet]
  | cons e rest ih =>
    obtain ⟨k0, v0⟩ := e
    by_cases h : k0 = k
    · simpa [mapDelete, List.filter_cons, h] using ih
    · simpa [mapDelete, List.filter_cons, h, mapGet] using ih

theorem mapGet_mapDelete_other {ν : Type} (m : List (Nat × ν)) (k j : Nat)
    (hkj : j ≠ k) : mapGet (mapDelete m k) j = mapGet m j := by
  induction m with
  | nil => simp [mapDelete, mapGet]
  | cons e rest ih =>
    obtain ⟨k0, v0⟩ := e
    by_cases h : k0 = k
    · subst h
      have : mapGet (mapDelete rest k0) j = mapGet rest j := ih
      simpa [mapDelete, List.filter_cons, mapGet, Ne.symm hkj] using this
    · have : mapGet (mapDelete rest k) j = mapGet rest j := ih
      by_cases h2 : k0 = j
      · subst h2
        simp [mapDelete, List.filter_cons, mapGet, hkj]
      · simpa [mapDelete, List.filter_cons, mapGet, h, h2] using this

/-! ## Lemmas on sockets, the store and the handlers -/

theorem find_setSocketUser_self (l : List Socket) (sid : String) (u : User)
    (h : l.any (fun t => t.id == sid) = true) :
    (setSocketUser l sid u).find? (fun t => t.id == sid) =
      some { id := sid, user := some u } := by
  induction l with
  | nil => simp at h
  | cons t rest ih =>
    by_cases ht : t.id = sid
    · simp [setSocketUser, ht]
    · have hrest : rest.any (fun t => t.id == sid) = true := by
        simpa [ht] using h
      have := ih hrest
      simpa [setSocketUser, ht] using this

theorem find_setSocketUser_other (l : List Socket) (sid other : String) (u : User)
    (hne : other ≠ sid) :
    (setSocketUser l sid u).find? (fun t => t.id == other) =
      l.find? (fun t => t.id == other) := by
  induction l with
  | nil => simp [setSocketUser]
  | cons t rest ih =>
    have ih2 : List.find? (fun t => t.id == other)
        (List.map (fun t => if t.id = sid then { t with user := some u } else t) rest) =
        List.find? (fun t => t.id == other) rest := ih
    by_cases ht : t.id = sid
    · have h2 : ¬ sid = other := fun e => hne e.symm
      simp [setSocketUser, ht, h2, List.find?_cons, ih2]
    · by_cases h3 : t.id = other
      · have h4 : ¬ other = sid := fun e => ht (h3.trans e)
        subst h3
        simp [setSocketUser, ht, List.find?_cons]
      · simp [setSocketUser, ht, h3, List.find?_cons, ih2]

theorem any_setSocketUser (l : List Socket) (sid other : String) (u : User) :
    (setSocketUser l sid u).any (fun t => t.id == other) =
      l.any (fun t => t.id == other) := by
  induction l with
  | nil => simp [setSocketUser]
  | cons t rest ih =>
    have ih2 : (List.map (fun t => if t.id = sid then { t with user := some u } else t)
        rest).any (fun t => t.id == other) = rest.any (fun t => t.id == other) := ih
    by_cases ht : t.id = sid
    · simp only [setSocketUser, List.map_cons, List.any_cons, ht, if_true, ih2]
    · simp only [setSocketUser, List.map_cons, List.any_cons, ht, if_false, ih2]

theorem findUser_updateUserStatus (db : Database) (now userId : Nat) (status name : String) :
    findUser (updateUserStatus db now userId status) name =
      (findUser db name).map (fun u =>
        if u.id = userId then { u with status := status, last_seen := now } else u) := by
  unfold findUser updateUserStatus
  simp only [List.find?_map]
  have hcomp : ((fun u : UserRow => u.username == name) ∘ fun u : UserRow =>
      if u.id = userId then { u with status := status, last_seen := now } else u) =
      fun u : UserRow => u.username == name := by
    funext u
    by_cases h : u.id = userId <;> simp [Function.comp, h]
  rw [hcomp]

/-- What `authenticate` does to the state once `findUser` has produced a row. -/
theorem onAuthenticate_found (st : ServerState) (env : Env) (sid name : String)
    (user : UserRow) (hf : env.faults.findUser = false)
    (hfind : findUser st.db name = some user) :
    (onAuthenticate st env sid name).state.sockets =
        setSocketUser st.sockets sid
          { id := user.id, username := user.username, avatar := user.avatar } ∧
    (onAuthenticate st env sid name).state.connectedUsers =
        mapSet st.connectedUsers user.id
          { socketId := sid,
            user := { id := user.id, username := user.username, avatar := user.avatar } } ∧
    ((onAuthenticate st env sid name).state.db = st.db ∨
      (onAuthenticate st env sid name).state.db =
        updateUserStatus st.db env.now user.id "online") := by
  unfold onAuthenticate
  simp only [hf, hfind]
  cases env.faults.updateUserStatus <;> cases env.faults.getOnlineUsers <;>
    cases env.faults.getChannels <;> simp

/-- After `authenticate` the same username still resolves to a row with the
same id, name and avatar. -/
theorem findUser_after_onAuthenticate (st : ServerState) (env : Env) (sid name : String)
    (user : UserRow) (hf : env.faults.findUser = false)
    (hfind : findUser st.db name = some user) :
    ∃ user2, findUser (onAuthenticate st env sid name).state.db name = some user2 ∧
      user2.id = user.id ∧ user2.username = user.username ∧ user2.avatar = user.avatar := by
  rcases (onAuthenticate_found st env sid name user hf hfind).2.2 with h | h
  · exact ⟨user, by rw [h]; exact hfind, rfl, rfl, rfl⟩
  · rw [h, findUser_updateUserStatus, hfind]
    by_cases hid : user.id = user.id
    · exact ⟨_, rfl, by simp, by simp, by simp⟩
    · exact absurd rfl hid

/-- What `disconnect` does to the map when the status write goes through. -/
theorem onDisconnect_connectedUsers (st : ServerState) (env : Env) (sid : String)
    (user : User) (hu : socketUser st sid = some user)
    (hf : env.faults.updateUserStatus = false) :
    (onDisconnect st env sid).state.connectedUsers = mapDelete st.connectedUsers user.id := by
  unfold onDisconnect
  simp only [hu, hf]
  cases env.faults.getOnlineUsers <;> simp

theorem socketUser_of_find (st : ServerState) (sid : String) (u : User)
    (h : st.sockets.find? (fun t => t.id == sid) = some { id := sid, user := some u }) :
    socketUser st sid = some u := by
  unfold socketUser
  rw [h]

/-! ## C1: re-authentication and disconnect -/

/-- C1 as stated fails.  After `alice` authenticates on `h1` and then on
`h2` the map holds `h2` for her id, but the `disconnect` of the replaced
handle `h1` changes the map: it removes her entry. -/
theorem C1_stale_disconnect_erases_mapping :
    mapGet (run ServerState.init twoHandlesTrace).connectedUsers 1 =
      some { socketId := "h2",
             user := { id := 1, username := "alice", avatar := "default.png" } } ∧
    (step (run ServerState.init twoHandlesTrace) env1 (.disconnect "h1")).state.connectedUsers ≠
      (run ServerState.init twoHandlesTrace).connectedUsers ∧
    mapGet (step (run ServerState.init twoHandlesTrace) env1
      (.disconnect "h1")).state.connectedUsers 1 = none := by
  decide

/-- C1 (amended).  For every identity and two distinct connected handles
`h1`, `h2`: after `authenticate` registers the identity on `h1` and then on
`h2` (the `findUser` lookup of each resolving), `connectedUsers` maps its id
to `h2`; a following `disconnect` of `h2` whose status write
(`updateUserStatus`) succeeds removes the mapping, and so does a following
`disconnect` of `h1` whose status write succeeds, because the handler
deletes by `socket.user.id` without comparing handles.  Nothing is said here
about a `disconnect` whose status write is rejected. -/
theorem C1_reauthenticate_then_disconnect (st : ServerState) (e1 e2 e3 : Env)
    (h1 h2 name : String) (user : UserRow)
    (hne : h1 ≠ h2) (hc1 : isConnected st h1 = true) (hc2 : isConnected st h2 = true)
    (hfind : findUser st.db name = some user)
    (hf1 : e1.faults.findUser = false) (hf2 : e2.faults.findUser = false)
    (hf3 : e3.faults.updateUserStatus = false) :
    mapGet (onAuthenticate (onAuthenticate st e1 h1 name).state e2 h2 name).state.connectedUsers
        user.id =
      some { socketId := h2,
             user := { id := user.id, username := user.username, avatar := user.avatar } } ∧
    mapGet (onDisconnect (onAuthenticate (onAuthenticate st e1 h1 name).state e2 h2 name).state
        e3 h1).state.connectedUsers user.id = none ∧
    mapGet (onDisconnect (onAuthenticate (onAuthenticate st e1 h1 name).state e2 h2 name).state
        e3 h2).state.connectedUsers user.id = none := by
  obtain ⟨user2, hfind2, hid, hun, hav⟩ :=
    findUser_after_onAuthenticate st e1 h1 name user hf1 hfind
  have A1 := onAuthenticate_found st e1 h1 name user hf1 hfind
  have A2 := onAuthenticate_found (onAuthenticate st e1 h1 name).state e2 h2 name user2
    hf2 hfind2
  rw [hid, hun, hav] at A2
  have hs2 := A2.1
  rw [A1.1] at hs2
  have hu1 : socketUser (onAuthenticate (onAuthenticate st e1 h1 name).state e2 h2 name).state
      h1 = some { id := user.id, username := user.username, avatar := user.avatar } := by
    apply socketUser_of_find
    rw [hs2, find_setSocketUser_other _ h2 h1 _ hne]
    exact find_setSocketUser_self _ h1 _ hc1
  have hu2 : socketUser (onAuthenticate (onAuthenticate st e1 h1 name).state e2 h2 name).state
      h2 = some { id := user.id, username := user.username, avatar := user.avatar } := by
    apply socketUser_of_find
    rw [hs2]
    apply find_setSocketUser_self
    rw [any_setSocketUser]
    exact hc2
  refine ⟨?_, ?_, ?_⟩
  · rw [A2.2.1]
    exact mapGet_mapSet_self _ _ _
  · rw [onDisconnect_connectedUsers _ e3 h1 _ hu1 hf3]
    exact mapGet_mapDelete_self _ _
  · rw [onDisconnect_connectedUsers _ e3 h2 _ hu2 hf3]
    exact mapGet_mapDelete_self _ _

/-- C1 (amended), at a concrete state: account `alice`, sockets `h1`, `h2`. -/
theorem C1_reauthenticate_then_disconnect_witness :
    mapGet (onAuthenticate (onAuthenticate
        (run ServerState.init [(env1, .register "alice" "secret"), (env1, .connection "h1"),
          (env1, .connection "h2")]) env1 "h1" "alice").state env1 "h2" "alice").state.connectedUsers
        1 =
      some { socketId := "h2",
             user := { id := 1, username := "alice", avatar := "default.png" } } ∧
    mapGet (onDisconnect (onAuthenticate (onAuthenticate
        (run ServerState.init [(env1, .register "alice" "secret"), (env1, .connection "h1"),
          (env1, .connection "h2")]) env1 "h1" "alice").state env1 "h2" "alice").state
        env1 "h1").state.connectedUsers 1 = none ∧
    mapGet (onDisconnect (onAuthenticate (onAuthenticate
        (run ServerState.init [(env1, .register "alice" "secret"), (env1, .connection "h1"),
          (env1, .connection "h2")]) env1 "h1" "alice").state env1 "h2" "alice").state
        env1 "h2").state.connectedUsers 1 = none :=
  C1_reauthenticate_then_disconnect
    (run ServerState.init [(env1, .register "alice" "secret"), (env1, .connection "h1"),
      (env1, .connection "h2")]) env1 env1 env1 "h1" "h2" "alice"
    { id := 1, username := "alice", password := bcryptHash "secret", avatar := "default.png",
      status := "online", last_seen := 1, created_at := 1 }
    (by decide) (by decide) (by decide) (by decide) (by decide) (by decide) (by decide)

/-! ## C2, C3: the `send-message` fan-out -/

theorem mem_sockets_of_socketUser (st : ServerState) (sid : String) (u : User)
    (h : socketUser st sid = some u) : ∃ t ∈ st.sockets, t.id = sid ∧ t.user = some u := by
  unfold socketUser at h
  cases hfind : st.sockets.find? (fun t => t.id == sid) with
  | none => rw [hfind] at h; exact absurd h (by simp)
  | some t =>
    rw [hfind] at h
    have hp := List.find?_some hfind
    exact ⟨t, List.mem_of_find?_eq_some hfind, by simpa using hp, h⟩

theorem filter_ioEmit_of_nodup (l : List Socket) (p : Payload)
    (hn : (l.map (fun t => t.id)).Nodup) (t : Socket) (ht : t ∈ l) :
    (l.map (fun t => ({ socketId := t.id, payload := p } : Delivery))).filter
        (fun d => d.socketId == t.id) = [{ socketId := t.id, payload := p }] := by
  induction l with
  | nil => simp at ht
  | cons a rest ih =>
    rw [List.map_cons, List.nodup_cons] at hn
    obtain ⟨hnot, hrest⟩ := hn
    rcases List.mem_cons.mp ht with rfl | hin
    · have hnone : (rest.map (fun t => ({ socketId := t.id, payload := p } : Delivery))).filter
          (fun d => d.socketId == t.id) = [] := by
        rw [List.filter_eq_nil_iff]
        intro d hd
        obtain ⟨b, hb, rfl⟩ := List.mem_map.mp hd
        have : b.id ≠ t.id := fun e => hnot (e ▸ List.mem_map_of_mem (fun t => t.id) hb)
        simpa using this
      simp [List.filter_cons, hnone]
    · have hne : a.id ≠ t.id := fun e => hnot (e ▸ List.mem_map_of_mem (fun t => t.id) hin)
      have := ih hrest hin
      simpa [List.filter_cons, hne] using this

theorem lt_lastID (ids : List Nat) : ∀ x ∈ ids, x < lastID ids := by
  induction ids with
  | nil => simp
  | cons a rest ih =>
    intro x hx
    unfold lastID at ih ⊢
    rw [List.foldr_cons]
    rcases List.mem_cons.mp hx with rfl | hin
    · omega
    · have := ih x hin
      omega

/-- The outcome of `send-message` on an authenticated socket whose
`saveMessage` resolves. -/
theorem onSendMessage_ok (st : ServerState) (env : Env) (sid : String)
    (data : SendMessageData) (user : User)
    (hu : socketUser st sid = some user) (hok : env.faults.saveMessage = false) :
    onSendMessage st env sid data =
      { state := { st with db :=
          (saveMessage st.db env.now user.id data.channelId data.message data.type).1 }
        out := st.sockets.map (fun t =>
          { socketId := t.id
            payload := .newMessage
              { id := lastID (st.db.messages.map (fun m => m.id)), user_id := user.id,
                channel_id := data.channelId, message := data.message, type := data.type,
                username := user.username, avatar := user.avatar, created_at := env.date } })
        logged := false, thrown := false } := by
  unfold onSendMessage
  simp only [hu, hok]
  simp [ioEmit, saveMessage]

/-- C2 as stated fails in a reachable state.  After `staleTrace` the map
holds a session for `alice` on handle `h1`, whose socket has disconnected.
Socket `h2` is authenticated, its `send-message` is stored, and no
`new-message` goes to `h1`. -/
theorem C2_stale_session_receives_nothing :
    Reachable (run ServerState.init staleTrace) ∧
    socketUser (run ServerState.init staleTrace) "h2" =
      some { id := 2, username := "bob", avatar := "default.png" } ∧
    mapGet (run ServerState.init staleTrace).connectedUsers 1 =
      some { socketId := "h1",
             user := { id := 1, username := "alice", avatar := "default.png" } } ∧
    (step (run ServerState.init staleTrace) env1 (.sendMessage "h2" hiData)).state.db.messages ≠
      (run ServerState.init staleTrace).db.messages ∧
    ∀ d ∈ (step (run ServerState.init staleTrace) env1 (.sendMessage "h2" hiData)).out,
      d.socketId ≠ "h1" := by
  refine ⟨⟨staleTrace, rfl⟩, ?_, ?_, ?_, ?_⟩ <;> decide

/-- C2 (amended).  A `send-message` event from an authenticated socket `S`
whose store write succeeds delivers exactly one `new-message` event to every
currently connected socket, `S` itself included, and to nothing else; a
session of the map receives it when its socket is still connected. -/
theorem C2_send_message_reaches_connected_sockets (st : ServerState) (env : Env)
    (sid : String) (data : SendMessageData) (user : User)
    (hu : socketUser st sid = some user) (hok : env.faults.saveMessage = false)
    (hn : (st.sockets.map (fun t => t.id)).Nodup) :
    (∀ t ∈ st.sockets, ∃ md,
      (onSendMessage st env sid data).out.filter (fun d => d.socketId == t.id) =
        [{ socketId := t.id, payload := .newMessage md }]) ∧
    (∃ md, (onSendMessage st env sid data).out.filter (fun d => d.socketId == sid) =
        [{ socketId := sid, payload := .newMessage md }]) ∧
    (∀ d ∈ (onSendMessage st env sid data).out, isConnected st d.socketId = true) ∧
    (∀ k sess, mapGet st.connectedUsers k = some sess →
      isConnected st sess.socketId = true →
      ∃ md, (onSendMessage st env sid data).out.filter (fun d => d.socketId == sess.socketId) =
        [{ socketId := sess.socketId, payload := .newMessage md }]) := by
  rw [onSendMessage_ok st env sid data user hu hok]
  dsimp only
  have hall : ∀ t ∈ st.sockets, ∀ p : Payload,
      (st.sockets.map (fun t => ({ socketId := t.id, payload := p } : Delivery))).filter
        (fun d => d.socketId == t.id) = [{ socketId := t.id, payload := p }] :=
    fun t ht p => filter_ioEmit_of_nodup st.sockets p hn t ht
  refine ⟨fun t ht => ⟨_, hall t ht _⟩, ?_, ?_, ?_⟩
  · obtain ⟨t, ht, hid, _⟩ := mem_sockets_of_socketUser st sid user hu
    subst hid
    exact ⟨_, hall t ht _⟩
  · intro d hd
    obtain ⟨t, ht, rfl⟩ := List.mem_map.mp hd
    simp only [isConnected, List.any_eq_true]
    exact ⟨t, ht, by simp⟩
  · intro k sess _ hc
    simp only [isConnected, List.any_eq_true] at hc
    obtain ⟨t, ht, hid⟩ := hc
    have hid2 : t.id = sess.socketId := by simpa using hid
    rw [← hid2]
    exact ⟨_, hall t ht _⟩

/-- C2 (amended), at the state after `twoHandlesTrace`, sender `h1`. -/
theorem C2_send_message_reaches_connected_sockets_witness :
    (onSendMessage (run ServerState.init twoHandlesTrace) env1 "h1" hiData).out.filter
        (fun d => d.socketId == "h2") =
      [{ socketId := "h2", payload := .newMessage
          { id := 1, user_id := 1, channel_id := "general", message := "hi",
            type := some "text", username := "alice", avatar := "default.png",
            created_at := env1.date } }] ∧
    ((∀ t ∈ (run ServerState.init twoHandlesTrace).sockets, ∃ md,
      (onSendMessage (run ServerState.init twoHandlesTrace) env1 "h1" hiData).out.filter
          (fun d => d.socketId == t.id) =
        [{ socketId := t.id, payload := .newMessage md }]) ∧
    (∃ md, (onSendMessage (run ServerState.init twoHandlesTrace) env1 "h1" hiData).out.filter
          (fun d => d.socketId == "h1") =
        [{ socketId := "h1", payload := .newMessage md }]) ∧
    (∀ d ∈ (onSendMessage (run ServerState.init twoHandlesTrace) env1 "h1" hiData).out,
      isConnected (run ServerState.init twoHandlesTrace) d.socketId = true) ∧
    (∀ k sess, mapGet (run ServerState.init twoHandlesTrace).connectedUsers k = some sess →
      isConnected (run ServerState.init twoHandlesTrace) sess.socketId = true →
      ∃ md, (onSendMessage (run ServerState.init twoHandlesTrace) env1 "h1" hiData).out.filter
          (fun d => d.socketId == sess.socketId) =
        [{ socketId := sess.socketId, payload := .newMessage md }])) :=
  ⟨by decide,
   C2_send_message_reaches_connected_sockets (run ServerState.init twoHandlesTrace) env1 "h1"
    hiData { id := 1, username := "alice", avatar := "default.png" }
    (by decide) (by decide) (by decide)⟩

/-- C3.  For an authenticated socket with identity `user` and every input
`{channelId, message, type}` whose `saveMessage` resolves, the handler
appends one row to `messages`, with a fresh store-assigned id, and every
`new-message` payload it broadcasts (there is at least one) carries
`channel_id = channelId`, `message = message`, `type = type`, `user_id` and
`username` of `user`, and `id` equal to the id of the row just inserted. -/
theorem C3_new_message_payload (st : ServerState) (env : Env) (sid : String)
    (data : SendMessageData) (user : User)
    (hu : socketUser st sid = some user) (hok : env.faults.saveMessage = false) :
    ∃ row : MessageRow,
      (onSendMessage st env sid data).state.db.messages = st.db.messages ++ [row] ∧
      (∀ m ∈ st.db.messages, m.id < row.id) ∧
      row.user_id = user.id ∧ row.channel_id = data.channelId ∧
      row.message = data.message ∧
      (onSendMessage st env sid data).out ≠ [] ∧
      ∀ d ∈ (onSendMessage st env sid data).out, ∃ md : MessageData,
        d.payload = .newMessage md ∧ md.id = row.id ∧ md.channel_id = data.channelId ∧
        md.message = data.message ∧ md.type = data.type ∧ md.user_id = user.id ∧
        md.username = user.username := by
  rw [onSendMessage_ok st env sid data user hu hok]
  refine ⟨{ id := lastID (st.db.messages.map (fun m => m.id)), user_id := user.id,
            channel_id := data.channelId, message := data.message,
            type := data.type.getD "text", created_at := env.now }, ?_, ?_, rfl, rfl, rfl, ?_, ?_⟩
  · simp [saveMessage]
  · intro m hm
    exact lt_lastID _ m.id (List.mem_map_of_mem (fun m => m.id) hm)
  · obtain ⟨t, ht, _, _⟩ := mem_sockets_of_socketUser st sid user hu
    intro hnil
    dsimp only at hnil
    rw [List.map_eq_nil_iff] at hnil
    rw [hnil] at ht
    simp at ht
  · intro d hd
    dsimp only at hd
    obtain ⟨t, _, rfl⟩ := List.mem_map.mp hd
    exact ⟨_, rfl, rfl, rfl, rfl, rfl, rfl, rfl⟩

/-- C3 at the scenario of the spec: `alice` sends
`{channelId:"general", message:"hi", type:"text"}`. -/
theorem C3_new_message_payload_witness :
    ∃ row : MessageRow,
      (onSendMessage (run ServerState.init twoHandlesTrace) env1 "h1" hiData).state.db.messages =
        (run ServerState.init twoHandlesTrace).db.messages ++ [row] ∧
      (∀ m ∈ (run ServerState.init twoHandlesTrace).db.messages, m.id < row.id) ∧
      row.user_id = 1 ∧ row.channel_id = "general" ∧ row.message = "hi" ∧
      (onSendMessage (run ServerState.init twoHandlesTrace) env1 "h1" hiData).out ≠ [] ∧
      ∀ d ∈ (onSendMessage (run ServerState.init twoHandlesTrace) env1 "h1" hiData).out,
        ∃ md : MessageData,
          d.payload = .newMessage md ∧ md.id = row.id ∧ md.channel_id = "general" ∧
          md.message = "hi" ∧ md.type = some "text" ∧ md.user_id = 1 ∧
          md.username = "alice" :=
  C3_new_message_payload (run ServerState.init twoHandlesTrace) env1 "h1" hiData
    { id := 1, username := "alice", avatar := "default.png" } (by decide) (by decide)

/-! ## C4, C5: `getChannelMessages` -/

theorem sorted_desc_insertionSort (l : List HistoryRow) :
    (l.insertionSort (fun a b => b.created_at ≤ a.created_at)).Pairwise
      (fun a b => b.created_at ≤ a.created_at) := by
  haveI : IsTotal HistoryRow (fun a b => b.created_at ≤ a.created_at) :=
    ⟨fun a b => Nat.le_total b.created_at a.created_at⟩
  haveI : IsTrans HistoryRow (fun a b => b.created_at ≤ a.created_at) :=
    ⟨fun _ _ _ hab hbc => Nat.le_trans hbc hab⟩
  exact List.sorted_insertionSort (fun a b : HistoryRow => b.created_at ≤ a.created_at) l

theorem mem_joinChannelMessages (db : Database) (channelId : String) (r : HistoryRow) :
    r ∈ joinChannelMessages db channelId ↔
      ∃ m ∈ db.messages, m.channel_id = channelId ∧ ∃ u ∈ db.users, u.id = m.user_id ∧
        r = { id := m.id, user_id := m.user_id, channel_id := m.channel_id,
              message := m.message, type := m.type, created_at := m.created_at,
              username := u.username, avatar := u.avatar } := by
  unfold joinChannelMessages
  simp only [List.mem_flatMap, List.mem_filter, List.mem_map, beq_iff_eq]
  constructor
  · rintro ⟨m, ⟨hm, hc⟩, u, ⟨hu, hid⟩, rfl⟩
    exact ⟨m, hm, hc, u, hu, hid, rfl⟩
  · rintro ⟨m, hm, hc, u, hu, hid, rfl⟩
    exact ⟨m, ⟨hm, hc⟩, u, ⟨hu, hid⟩, rfl⟩

theorem length_filter_id_of_nodup (users : List UserRow) (x : Nat)
    (hn : (users.map (fun u => u.id)).Nodup) :
    (users.filter (fun u => u.id == x)).length =
      if users.any (fun u => u.id == x) then 1 else 0 := by
  induction users with
  | nil => simp
  | cons a rest ih =>
    rw [List.map_cons, List.nodup_cons] at hn
    obtain ⟨hnot, hrest⟩ := hn
    have ih2 := ih hrest
    by_cases ha : a.id = x
    · have hnone : rest.any (fun u => u.id == x) = false := by
        rw [List.any_eq_false]
        intro u hu
        have : u.id ≠ x := fun e => hnot (ha ▸ e ▸ List.mem_map_of_mem (fun u => u.id) hu)
        simpa using this
      rw [hnone] at ih2
      simp [List.filter_cons, ha, ih2]
    · simp [List.filter_cons, ha, ih2]

theorem length_joinChannelMessages (db : Database) (channelId : String)
    (hn : (db.users.map (fun u => u.id)).Nodup) :
    (joinChannelMessages db channelId).length =
      (db.messages.filter (fun m =>
        m.channel_id == channelId && db.users.any (fun u => u.id == m.user_id))).length := by
  unfold joinChannelMessages
  induction db.messages with
  | nil => simp
  | cons m rest ih =>
    by_cases hc : m.channel_id = channelId
    · by_cases ha : db.users.any (fun u => u.id == m.user_id) = true
      · simp [List.filter_cons, hc, ha, ih, List.flatMap_cons,
          length_filter_id_of_nodup db.users m.user_id hn]
        omega
      · simp [List.filter_cons, hc, ha, ih, List.flatMap_cons,
          length_filter_id_of_nodup db.users m.user_id hn]
    · simp [List.filter_cons, hc, ih]

/-- C4.  For every store, every channel id and every limit (a non-negative
integer), `getChannelMessages(channelId, limit)` returns rows whose
`created_at` values are non-decreasing from first to last, at most `limit`
of them. -/
theorem C4_history_ascending_and_bounded (db : Database) (channelId : String) (limit : Nat) :
    (getChannelMessages db channelId limit).Pairwise
        (fun a b => a.created_at ≤ b.created_at) ∧
    (getChannelMessages db channelId limit).length ≤ limit := by
  unfold getChannelMessages
  constructor
  · rw [List.pairwise_reverse]
    exact (sorted_desc_insertionSort _).sublist (List.take_sublist _ _)
  · rw [List.length_reverse, List.length_take]
    exact Nat.min_le_left _ _

/-- C5 as stated fails.  In `orphanStore` channel `general` holds message 1
(author present, `created_at = 1`) and message 2 (author absent,
`created_at = 5`).  With limit 1 the query returns message 1 only; message 2
is a stored message of the channel that is not returned, and it is newer
than the returned one. -/
theorem C5_unreturned_message_is_newer :
    (getChannelMessages orphanStore "general" 1).map (fun r => r.id) = [1] ∧
    ∃ m ∈ orphanStore.messages, m.channel_id = "general" ∧
      (∀ r ∈ getChannelMessages orphanStore "general" 1, r.id ≠ m.id) ∧
      ∃ r ∈ getChannelMessages orphanStore "general" 1, r.created_at < m.created_at := by
  decide

/-- C5 (amended).  For every store whose `users.id` is a key, every channel
id and every limit: each returned row has `channel_id = channelId`; the
result has length `min limit n`, where `n` counts the stored messages of the
channel whose author exists; and every stored message of the channel whose
author exists and that is not returned has `created_at` less than or equal
to that of every returned row. -/
theorem C5_history_most_recent (db : Database) (channelId : String) (limit : Nat)
    (hn : (db.users.map (fun u => u.id)).Nodup) :
    (∀ r ∈ getChannelMessages db channelId limit, r.channel_id = channelId) ∧
    (getChannelMessages db channelId limit).length =
      min limit (db.messages.filter (fun m =>
        m.channel_id == channelId && db.users.any (fun u => u.id == m.user_id))).length ∧
    (∀ m ∈ db.messages, m.channel_id = channelId →
      (∃ u ∈ db.users, u.id = m.user_id) →
      (∀ r ∈ getChannelMessages db channelId limit, r.id ≠ m.id) →
      ∀ r ∈ getChannelMessages db channelId limit, m.created_at ≤ r.created_at) := by
  unfold getChannelMessages
  refine ⟨?_, ?_, ?_⟩
  · intro r hr
    rw [List.mem_reverse] at hr
    have hj := (List.mem_insertionSort _).mp (List.mem_of_mem_take hr)
    obtain ⟨m, _, hc, u, _, _, rfl⟩ := (mem_joinChannelMessages db channelId r).mp hj
    exact hc
  · rw [List.length_reverse, List.length_take, List.length_insertionSort,
      length_joinChannelMessages db channelId hn]
  · intro m hm hc ⟨u, hu, hid⟩ hnot r hr
    rw [List.mem_reverse] at hr
    have hj : ({ id := m.id, user_id := m.user_id, channel_id := m.channel_id,
                 message := m.message, type := m.type, created_at := m.created_at,
                 username := u.username, avatar := u.avatar } : HistoryRow) ∈
        (joinChannelMessages db channelId).insertionSort
          (fun a b => b.created_at ≤ a.created_at) :=
      (List.mem_insertionSort _).mpr
        ((mem_joinChannelMessages db channelId _).mpr ⟨m, hm, hc, u, hu, hid, rfl⟩)
    rw [← List.take_append_drop limit ((joinChannelMessages db channelId).insertionSort
      (fun a b => b.created_at ≤ a.created_at))] at hj
    rcases List.mem_append.mp hj with htake | hdrop
    · exact absurd rfl (hnot _ (List.mem_reverse.mpr htake))
    · have hs := sorted_desc_insertionSort (joinChannelMessages db channelId)
      rw [← List.take_append_drop limit ((joinChannelMessages db channelId).insertionSort
        (fun a b => b.created_at ≤ a.created_at)), List.pairwise_append] at hs
      exact hs.2.2 r hr _ hdrop

/-- C5 (amended) at `historyStore`, channel `general`, limit 1: the one row
returned is message 3, the newest of the channel. -/
theorem C5_history_most_recent_witness :
    (getChannelMessages historyStore "general" 1).map (fun r => r.id) = [3] ∧
    ((∀ r ∈ getChannelMessages historyStore "general" 1, r.channel_id = "general") ∧
    (getChannelMessages historyStore "general" 1).length =
      min 1 (historyStore.messages.filter (fun m =>
        m.channel_id == "general" &&
          historyStore.users.any (fun u => u.id == m.user_id))).length ∧
    (∀ m ∈ historyStore.messages, m.channel_id = "general" →
      (∃ u ∈ historyStore.users, u.id = m.user_id) →
      (∀ r ∈ getChannelMessages historyStore "general" 1, r.id ≠ m.id) →
      ∀ r ∈ getChannelMessages historyStore "general" 1, m.created_at ≤ r.created_at)) :=
  ⟨by decide, C5_history_most_recent historyStore "general" 1 (by decide)⟩

/-! ## C6, C7, C8: the signaling relay -/

theorem filter_id_of_nodup (l : List Socket) (hn : (l.map (fun t => t.id)).Nodup)
    (b : Socket) (hb : b ∈ l) : l.filter (fun t => t.id == b.id) = [b] := by
  induction l with
  | nil => simp at hb
  | cons a rest ih =>
    rw [List.map_cons, List.nodup_cons] at hn
    obtain ⟨hnot, hrest⟩ := hn
    rcases List.mem_cons.mp hb with rfl | hin
    · have hnone : rest.filter (fun t => t.id == b.id) = [] := by
        rw [List.filter_eq_nil_iff]
        intro t ht
        have : t.id ≠ b.id := fun e => hnot (e ▸ List.mem_map_of_mem (fun t => t.id) ht)
        simpa using this
      simp [List.filter_cons, hnone]
    · have hne : a.id ≠ b.id := fun e => hnot (e ▸ List.mem_map_of_mem (fun t => t.id) hin)
      have := ih hrest hin
      simpa [List.filter_cons, hne] using this

/-- Emitting to the room named by the id of a connected socket other than the
sender reaches that socket and nothing else. -/
theorem socketToEmit_handle (st : ServerState) (sid : String) (p : Payload)
    (hn : (st.sockets.map (fun t => t.id)).Nodup) (b : Socket) (hb : b ∈ st.sockets)
    (hne : b.id ≠ sid) :
    socketToEmit st sid (.str b.id) p = [{ socketId := b.id, payload := p }] := by
  unfold socketToEmit
  have hfilter : st.sockets.filter (fun t => t.id != sid && Room.str t.id == Room.str b.id) =
      st.sockets.filter (fun t => t.id == b.id) := by
    apply List.filter_congr
    intro t _
    by_cases h : t.id = b.id
    · simp [h, hne]
    · have h2 : ¬ Room.str t.id = Room.str b.id := fun e => h (Room.str.inj e)
      have e1 : (t.id == b.id) = false := beq_eq_false_iff_ne.mpr h
      have e2 : (Room.str t.id == Room.str b.id) = false := beq_eq_false_iff_ne.mpr h2
      rw [e1, e2, Bool.and_false]
  rw [hfilter, filter_id_of_nodup st.sockets hn b hb]
  rfl

/-- Emitting to a room that no connected socket other than the sender is
named by reaches nothing. -/
theorem socketToEmit_nil (st : ServerState) (sid : String) (room : Room) (p : Payload)
    (h : ∀ t ∈ st.sockets, t.id ≠ sid → Room.str t.id ≠ room) :
    socketToEmit st sid room p = [] := by
  unfold socketToEmit
  rw [List.map_eq_nil_iff, List.filter_eq_nil_iff]
  intro t ht
  by_cases hs : t.id = sid
  · simp [hs]
  · simp [hs, h t ht hs]

/-- C6 as stated fails in a reachable state.  After `twoUsersTrace` `alice`
(id 1) is registered on `h1` and `bob` (id 2) on `h2`.  A `webrtc-offer`
from `h1` whose target is `bob`'s identity id, or his display name, is
delivered to nobody. -/
theorem C6_offer_to_identity_is_dropped :
    Reachable (run ServerState.init twoUsersTrace) ∧
    socketUser (run ServerState.init twoUsersTrace) "h1" =
      some { id := 1, username := "alice", avatar := "default.png" } ∧
    mapGet (run ServerState.init twoUsersTrace).connectedUsers 2 =
      some { socketId := "h2",
             user := { id := 2, username := "bob", avatar := "default.png" } } ∧
    isConnected (run ServerState.init twoUsersTrace) "h2" = true ∧
    (step (run ServerState.init twoUsersTrace) env1
      (.signaling "h1" (.webrtcOffer (.num 2) "sdp"))).out = [] ∧
    (step (run ServerState.init twoUsersTrace) env1
      (.signaling "h1" (.webrtcOffer (.str "bob") "sdp"))).out = [] := by
  refine ⟨⟨twoUsersTrace, rfl⟩, ?_, ?_, ?_, ?_, ?_⟩ <;> decide

/-- C6 (amended).  With `A` authenticated on the sending socket and `B`'s
socket connected, a `webrtc-offer` whose target is the id of `B`'s socket
(its transport handle) is delivered to that socket and to no other, and the
payload carries `caller = A.id`, `callerName = A.username` and the offer
unchanged. -/
theorem C6_offer_to_handle (st : ServerState) (sid : String) (offer : Json) (userA : User)
    (b : Socket) (hu : socketUser st sid = some userA)
    (hn : (st.sockets.map (fun t => t.id)).Nodup) (hb : b ∈ st.sockets) (hne : b.id ≠ sid) :
    (handleSignaling st sid (.webrtcOffer (.str b.id) offer)).out =
      [{ socketId := b.id, payload := .webrtcOffer offer userA.id userA.username }] := by
  simp only [handleSignaling, hu]
  exact socketToEmit_handle st sid _ hn b hb hne

/-- C6 (amended) after `twoUsersTrace`: `alice` on `h1` offers to handle `h2`. -/
theorem C6_offer_to_handle_witness :
    (handleSignaling (run ServerState.init twoUsersTrace) "h1"
        (.webrtcOffer (.str "h2") "sdp")).out =
      [{ socketId := "h2", payload := .webrtcOffer "sdp" 1 "alice" }] :=
  C6_offer_to_handle (run ServerState.init twoUsersTrace) "h1" "sdp"
    { id := 1, username := "alice", avatar := "default.png" }
    { id := "h2", user := some { id := 2, username := "bob", avatar := "default.png" } }
    (by decide) (by decide) (by decide) (by decide)

/-- C7 as stated fails in a reachable state.  After `twoUsersTrace` the
string `"h2"` is not a key of the map (its keys are the ids 1 and 2), yet a
`webrtc-offer` and a `webrtc-ice-candidate` from `h1` with that target are
each delivered to socket `h2`. -/
theorem C7_unregistered_target_is_delivered :
    Reachable (run ServerState.init twoUsersTrace) ∧
    (∀ e ∈ (run ServerState.init twoUsersTrace).connectedUsers, Room.num e.1 ≠ Room.str "h2") ∧
    (step (run ServerState.init twoUsersTrace) env1
      (.signaling "h1" (.webrtcOffer (.str "h2") "sdp"))).out =
        [{ socketId := "h2", payload := .webrtcOffer "sdp" 1 "alice" }] ∧
    (step (run ServerState.init twoUsersTrace) env1
      (.signaling "h1" (.webrtcIceCandidate (.str "h2") "cand"))).out =
        [{ socketId := "h2", payload := .webrtcIceCandidate "cand" }] := by
  refine ⟨⟨twoUsersTrace, rfl⟩, ?_, ?_, ?_⟩ <;> decide

/-- C7 (amended).  A directed signaling event from an authenticated origin
whose target is not the id of a connected socket other than the origin's
produces no outbound delivery, raises no error and leaves the state as it
was.  Every target that is an identity id, registered or not, is such a
target. -/
theorem C7_unknown_target_is_dropped (st : ServerState) (sid : String) (sig : Signal)
    (target : Room) (user : User) (hu : socketUser st sid = some user)
    (hsig : sig.target = some target)
    (hroom : ∀ t ∈ st.sockets, t.id ≠ sid → Room.str t.id ≠ target) :
    (handleSignaling st sid sig).out = [] ∧
    (handleSignaling st sid sig).thrown = false ∧
    (handleSignaling st sid sig).logged = false ∧
    (handleSignaling st sid sig).state = st := by
  cases sig <;> simp only [Signal.target, Option.some.injEq, reduceCtorEq] at hsig <;>
    subst hsig <;> simp only [handleSignaling, hu] <;>
    exact ⟨socketToEmit_nil st sid _ _ hroom, trivial, trivial, trivial⟩

/-- C7 (amended) after `twoUsersTrace`: `alice` answers to identity id 5. -/
theorem C7_unknown_target_is_dropped_witness :
    (handleSignaling (run ServerState.init twoUsersTrace) "h1"
        (.webrtcAnswer (.num 5) "sdp")).out = [] ∧
    (handleSignaling (run ServerState.init twoUsersTrace) "h1"
        (.webrtcAnswer (.num 5) "sdp")).thrown = false ∧
    (handleSignaling (run ServerState.init twoUsersTrace) "h1"
        (.webrtcAnswer (.num 5) "sdp")).logged = false ∧
    (handleSignaling (run ServerState.init twoUsersTrace) "h1"
        (.webrtcAnswer (.num 5) "sdp")).state = run ServerState.init twoUsersTrace :=
  C7_unknown_target_is_dropped (run ServerState.init twoUsersTrace) "h1"
    (.webrtcAnswer (.num 5) "sdp") (.num 5)
    { id := 1, username := "alice", avatar := "default.png" }
    (by decide) (by decide) (by decide)

/-- C8 as stated fails in reachable states.  After `lurkerTrace` socket `h3`
is connected, has never authenticated and is the handle of no session of the
map, yet it receives the `user-media-update` caused by `alice` on `h1`.
After `twoHandlesTrace` the origin `alice` is registered on `h2`, and her
older socket `h1`, which still carries her identity, receives her own
`user-media-update`. -/
theorem C8_broadcast_leaves_the_registry :
    Reachable (run ServerState.init lurkerTrace) ∧
    (∀ e ∈ (run ServerState.init lurkerTrace).connectedUsers, e.2.socketId ≠ "h3") ∧
    (step (run ServerState.init lurkerTrace) env1
      (.signaling "h1" (.mediaToggle "true" "false"))).out =
        [{ socketId := "h3", payload := .userMediaUpdate 1 "true" "false" }] ∧
    Reachable (run ServerState.init twoHandlesTrace) ∧
    socketUser (run ServerState.init twoHandlesTrace) "h1" =
      socketUser (run ServerState.init twoHandlesTrace) "h2" ∧
    (step (run ServerState.init twoHandlesTrace) env1
      (.signaling "h2" (.mediaToggle "true" "false"))).out =
        [{ socketId := "h1", payload := .userMediaUpdate 1 "true" "false" }] := by
  refine ⟨⟨lurkerTrace, rfl⟩, ?_, ?_, ⟨twoHandlesTrace, rfl⟩, ?_, ?_⟩ <;> decide

theorem mem_socketBroadcastEmit (st : ServerState) (sid : String) (p : Payload)
    (d : Delivery) :
    d ∈ socketBroadcastEmit st sid p ↔
      d.payload = p ∧ isConnected st d.socketId = true ∧ d.socketId ≠ sid := by
  unfold socketBroadcastEmit isConnected
  simp only [List.mem_map, List.mem_filter, List.any_eq_true, bne_iff_ne, ne_eq, beq_iff_eq]
  constructor
  · rintro ⟨t, ⟨ht, hne⟩, rfl⟩
    exact ⟨rfl, ⟨t, ht, rfl⟩, hne⟩
  · rintro ⟨hp, ⟨t, ht, hid⟩, hne⟩
    refine ⟨t, ⟨ht, hid ▸ hne⟩, ?_⟩
    cases d
    simp only at hp hid
    subst hp hid
    rfl

/-- C8 (amended).  For every broadcast-kind signaling event (`media-toggle`,
`start-screen-share`, `stop-screen-share`, `voice-activity`) from an
authenticated origin socket, one outbound payload is emitted, and the
handles that receive it are exactly the connected sockets other than the
origin socket itself, whether or not they are handles of sessions of the
registry.  No error is raised and the state is unchanged. -/
theorem C8_broadcast_reaches_all_other_sockets (st : ServerState) (sid : String)
    (sig : Signal) (user : User) (hu : socketUser st sid = some user)
    (hsig : sig.isBroadcast = true) :
    (∃ p : Payload, ∀ d : Delivery, d ∈ (handleSignaling st sid sig).out ↔
      d.payload = p ∧ isConnected st d.socketId = true ∧ d.socketId ≠ sid) ∧
    (handleSignaling st sid sig).thrown = false ∧
    (handleSignaling st sid sig).state = st := by
  cases sig <;> simp only [Signal.isBroadcast, Bool.false_eq_true] at hsig <;>
    simp only [handleSignaling, hu] <;>
    exact ⟨⟨_, fun d => mem_socketBroadcastEmit st sid _ d⟩, trivial, trivial⟩

/-- C8 (amended) after `lurkerTrace`: `alice` on `h1` reports voice activity. -/
theorem C8_broadcast_reaches_all_other_sockets_witness :
    (handleSignaling (run ServerState.init lurkerTrace) "h1" (.voiceActivity "true")).out =
      [{ socketId := "h3", payload := .userVoiceActivity 1 "true" }] ∧
    ((∃ p : Payload, ∀ d : Delivery,
      d ∈ (handleSignaling (run ServerState.init lurkerTrace) "h1" (.voiceActivity "true")).out ↔
        d.payload = p ∧ isConnected (run ServerState.init lurkerTrace) d.socketId = true ∧
          d.socketId ≠ "h1") ∧
    (handleSignaling (run ServerState.init lurkerTrace) "h1" (.voiceActivity "true")).thrown =
      false ∧
    (handleSignaling (run ServerState.init lurkerTrace) "h1" (.voiceActivity "true")).state =
      run ServerState.init lurkerTrace) :=
  ⟨by decide,
   C8_broadcast_reaches_all_other_sockets (run ServerState.init lurkerTrace) "h1"
    (.voiceActivity "true") { id := 1, username := "alice", avatar := "default.png" }
    (by decide) (by decide)⟩

/-! ## C9, C10: `disconnect` and the status write -/

theorem getOnlineUsers_after_offline (db : Database) (now userId : Nat) :
    ∀ u ∈ getOnlineUsers (updateUserStatus db now userId "offline"), u.id ≠ userId := by
  intro u hu
  unfold getOnlineUsers updateUserStatus at hu
  rw [List.mem_insertionSort] at hu
  simp only [List.mem_map, List.mem_filter] at hu
  obtain ⟨row, ⟨⟨orig, _, rfl⟩, hstatus⟩, rfl⟩ := hu
  by_cases h : orig.id = userId
  · simp [h] at hstatus
  · simp [h]

/-- The outcome of `disconnect` on an authenticated socket when the store
calls resolve. -/
theorem onDisconnect_ok (st : ServerState) (env : Env) (sid : String) (user : User)
    (hu : socketUser st sid = some user)
    (hf1 : env.faults.updateUserStatus = false) (hf2 : env.faults.getOnlineUsers = false) :
    onDisconnect st env sid =
      { state :=
          { db := updateUserStatus st.db env.now user.id "offline"
            sockets := st.sockets.filter (fun t => t.id != sid)
            connectedUsers := mapDelete st.connectedUsers user.id }
        out := (st.sockets.filter (fun t => t.id != sid)).map (fun t =>
          { socketId := t.id
            payload := .usersUpdate
              (getOnlineUsers (updateUserStatus st.db env.now user.id "offline")) })
        logged := false, thrown := false } := by
  unfold onDisconnect
  simp only [hu, hf1, hf2]
  simp [ioEmit]

/-- C9 as stated fails in a reachable state.  After `reauthTrace` the map
registers `alice` on `h1`, `h1` is connected and no other socket carries
her identity, so she is registered on exactly one connected socket.  The
store works.  The `disconnect` of `h1` deletes the key of `bob` (the current
`socket.user`), leaves `alice` mapped to `h1`, and the `users-update` sent to
`h2` lists `alice` as online. -/
theorem C9_registered_identity_survives_disconnect :
    Reachable (run ServerState.init reauthTrace) ∧
    mapGet (run ServerState.init reauthTrace).connectedUsers 1 =
      some { socketId := "h1",
             user := { id := 1, username := "alice", avatar := "default.png" } } ∧
    isConnected (run ServerState.init reauthTrace) "h1" = true ∧
    (∀ t ∈ (run ServerState.init reauthTrace).sockets, t.id ≠ "h1" →
      t.user ≠ some { id := 1, username := "alice", avatar := "default.png" }) ∧
    mapGet (step (run ServerState.init reauthTrace) env1
      (.disconnect "h1")).state.connectedUsers 1 =
      some { socketId := "h1",
             user := { id := 1, username := "alice", avatar := "default.png" } } ∧
    (step (run ServerState.init reauthTrace) env1 (.disconnect "h1")).out =
      [{ socketId := "h2", payload := .usersUpdate
          [{ id := 1, username := "alice", avatar := "default.png", status := "online" }] }] := by
  refine ⟨⟨reauthTrace, rfl⟩, ?_, ?_, ?_, ?_, ?_⟩ <;> decide

/-- C9 (amended).  When identity `A` is the current identity (`socket.user`)
of a connected socket and the store calls resolve, that socket's
`disconnect` removes `A` from `connectedUsers` and delivers to every
remaining connected socket, and to nothing else, one `users-update` payload;
the payload does not contain `A`. -/
theorem C9_disconnect_removes_and_notifies (st : ServerState) (env : Env) (sid : String)
    (user : User) (hu : socketUser st sid = some user)
    (hf1 : env.faults.updateUserStatus = false) (hf2 : env.faults.getOnlineUsers = false) :
    mapGet (onDisconnect st env sid).state.connectedUsers user.id = none ∧
    ∃ onlineUsers : List OnlineUser,
      (∀ u ∈ onlineUsers, u.id ≠ user.id) ∧
      (∀ t ∈ st.sockets, t.id ≠ sid →
        ({ socketId := t.id, payload := .usersUpdate onlineUsers } : Delivery) ∈
          (onDisconnect st env sid).out) ∧
      (∀ d ∈ (onDisconnect st env sid).out,
        d.payload = .usersUpdate onlineUsers ∧ d.socketId ≠ sid ∧
          isConnected st d.socketId = true) := by
  rw [onDisconnect_ok st env sid user hu hf1 hf2]
  refine ⟨mapGet_mapDelete_self _ _,
    getOnlineUsers (updateUserStatus st.db env.now user.id "offline"),
    getOnlineUsers_after_offline st.db env.now user.id, ?_, ?_⟩
  · intro t ht hne
    dsimp only
    exact List.mem_map.mpr ⟨t, List.mem_filter.mpr ⟨ht, by simpa using hne⟩, rfl⟩
  · intro d hd
    dsimp only at hd
    obtain ⟨t, ht, rfl⟩ := List.mem_map.mp hd
    obtain ⟨hmem, hne⟩ := List.mem_filter.mp ht
    refine ⟨rfl, by simpa using hne, ?_⟩
    simp only [isConnected, List.any_eq_true]
    exact ⟨t, hmem, by simp⟩

/-- C9 (amended) after `twoUsersTrace`: `alice` disconnects from `h1`; `bob`
on `h2` is told that `bob` alone is online. -/
theorem C9_disconnect_removes_and_notifies_witness :
    (onDisconnect (run ServerState.init twoUsersTrace) env1 "h1").out =
      [{ socketId := "h2", payload := .usersUpdate
          [{ id := 2, username := "bob", avatar := "default.png", status := "online" }] }] ∧
    (mapGet (onDisconnect (run ServerState.init twoUsersTrace) env1 "h1").state.connectedUsers
        1 = none ∧
    ∃ onlineUsers : List OnlineUser,
      (∀ u ∈ onlineUsers, u.id ≠ 1) ∧
      (∀ t ∈ (run ServerState.init twoUsersTrace).sockets, t.id ≠ "h1" →
        ({ socketId := t.id, payload := .usersUpdate onlineUsers } : Delivery) ∈
          (onDisconnect (run ServerState.init twoUsersTrace) env1 "h1").out) ∧
      (∀ d ∈ (onDisconnect (run ServerState.init twoUsersTrace) env1 "h1").out,
        d.payload = .usersUpdate onlineUsers ∧ d.socketId ≠ "h1" ∧
          isConnected (run ServerState.init twoUsersTrace) d.socketId = true)) :=
  ⟨by decide,
   C9_disconnect_removes_and_notifies (run ServerState.init twoUsersTrace) env1 "h1"
    { id := 1, username := "alice", avatar := "default.png" }
    (by decide) (by decide) (by decide)⟩

/-- The `authenticate` half of C10 holds on the code: `connectedUsers.set`
runs before `updateUserStatus`, so a rejected status write leaves the
identity mapped. -/
theorem onAuthenticate_maps_despite_failed_status (st : ServerState) (env : Env)
    (sid name : String) (user : UserRow) (hf : env.faults.findUser = false)
    (hfind : findUser st.db name = some user) (_hfail : env.faults.updateUserStatus = true) :
    mapGet (onAuthenticate st env sid name).state.connectedUsers user.id =
      some { socketId := sid,
             user := { id := user.id, username := user.username, avatar := user.avatar } } := by
  rw [(onAuthenticate_found st env sid name user hf hfind).2.1]
  exact mapGet_mapSet_self _ _ _

/-- The `disconnect` handler does `await updateUserStatus` before
`connectedUsers.delete`: when the status write rejects, control jumps to
`catch` and the map is left as it was. -/
theorem onDisconnect_keeps_map_on_failed_status (st : ServerState) (env : Env) (sid : String)
    (user : User) (hu : socketUser st sid = some user)
    (hfail : env.faults.updateUserStatus = true) :
    (onDisconnect st env sid).state.connectedUsers = st.connectedUsers ∧
    (onDisconnect st env sid).logged = true := by
  unfold onDisconnect
  simp [hu, hfail]

/-- C10 evaluated on the code.  With `updateUserStatus` rejecting:
`authenticate` of `alice` on `h1` leaves her mapped (as the claim says), and
the `disconnect` of `h1` after `lurkerTrace` leaves her mapped too, where the
claim says the mapping is gone. -/
theorem C10_failed_status_write_on_disconnect_keeps_mapping :
    mapGet (step (run ServerState.init [(env1, .register "alice" "secret"),
        (env1, .connection "h1")]) envStatusFails (.authenticate "h1" "alice")).state.connectedUsers
        1 =
      some { socketId := "h1",
             user := { id := 1, username := "alice", avatar := "default.png" } } ∧
    mapGet (run ServerState.init lurkerTrace).connectedUsers 1 =
      some { socketId := "h1",
             user := { id := 1, username := "alice", avatar := "default.png" } } ∧
    isConnected (step (run ServerState.init lurkerTrace) envStatusFails
      (.disconnect "h1")).state "h1" = false ∧
    mapGet (step (run ServerState.init lurkerTrace) envStatusFails
      (.disconnect "h1")).state.connectedUsers 1 =
      some { socketId := "h1",
             user := { id := 1, username := "alice", avatar := "default.png" } } := by
  decide

/-! ## Connected sockets have distinct ids in every reachable state -/

theorem map_id_setSocketUser (l : List Socket) (sid : String) (u : User) :
    (setSocketUser l sid u).map (fun t => t.id) = l.map (fun t => t.id) := by
  induction l with
  | nil => rfl
  | cons t rest ih =>
    have ih2 : (List.map (fun t => if t.id = sid then { t with user := some u } else t)
        rest).map (fun t => t.id) = rest.map (fun t => t.id) := ih
    by_cases ht : t.id = sid
    · simp only [setSocketUser, List.map_cons, ht, if_true, ih2]
    · simp only [setSocketUser, List.map_cons, ht, if_false, ih2]

theorem onAuthenticate_socket_ids (st : ServerState) (env : Env) (sid name : String) :
    (onAuthenticate st env sid name).state.sockets.map (fun t => t.id) =
      st.sockets.map (fun t => t.id) := by
  unfold onAuthenticate
  cases env.faults.findUser
  · cases findUser st.db name with
    | none => rfl
    | some user =>
      cases env.faults.updateUserStatus <;> cases env.faults.getOnlineUsers <;>
        cases env.faults.getChannels <;> exact map_id_setSocketUser _ _ _
  · rfl

theorem onSendMessage_sockets (st : ServerState) (env : Env) (sid : String)
    (data : SendMessageData) : (onSendMessage st env sid data).state.sockets = st.sockets := by
  unfold onSendMessage
  cases socketUser st sid with
  | none => rfl
  | some user => cases env.faults.saveMessage <;> rfl

theorem onCreateChannel_sockets (st : ServerState) (env : Env) (sid : String)
    (data : CreateChannelData) :
    (onCreateChannel st env sid data).state.sockets = st.sockets := by
  unfold onCreateChannel
  cases socketUser st sid with
  | none => rfl
  | some user => cases env.faults.createChannel <;> rfl

theorem handleSignaling_state (st : ServerState) (sid : String) (sig : Signal) :
    (handleSignaling st sid sig).state = st := by
  cases sig <;> simp only [handleSignaling] <;> first
    | rfl
    | (cases socketUser st sid <;> rfl)

theorem onDisconnect_sockets (st : ServerState) (env : Env) (sid : String) :
    (onDisconnect st env sid).state.sockets = st.sockets.filter (fun t => t.id != sid) := by
  unfold onDisconnect
  cases socketUser st sid with
  | none => rfl
  | some user =>
    cases env.faults.updateUserStatus <;> cases env.faults.getOnlineUsers <;> rfl

theorem apiRegister_sockets (st : ServerState) (env : Env) (username password : String) :
    (apiRegister st env username password).1.sockets = st.sockets := by
  unfold apiRegister
  split_ifs
  · rfl
  · rfl
  · rfl
  · cases createUser st.db env.now username password <;> rfl

theorem apiLogin_sockets (st : ServerState) (env : Env) (username password : String) :
    (apiLogin st env username password).1.sockets = st.sockets := by
  unfold apiLogin
  cases validateUser st.db username password with
  | none => split_ifs <;> rfl
  | some user => split_ifs <;> rfl

/-- One reaction keeps the ids of the connected sockets distinct. -/
theorem step_nodup_socket_ids (st : ServerState) (env : Env) (ev : Event)
    (hn : (st.sockets.map (fun t => t.id)).Nodup) :
    ((step st env ev).state.sockets.map (fun t => t.id)).Nodup := by
  cases ev with
  | register username password =>
    simp only [step, idle, apiRegister_sockets]; exact hn
  | login username password =>
    simp only [step, idle, apiLogin_sockets]; exact hn
  | connection sid =>
    simp only [step]
    cases hc : isConnected st sid
    · simp only [idle, Bool.false_eq_true, if_false, List.map_append, List.map_cons,
        List.map_nil]
      rw [List.nodup_append]
      refine ⟨hn, List.nodup_singleton _, ?_⟩
      intro a ha hb
      rw [List.mem_singleton] at hb
      subst hb
      obtain ⟨t, ht, hid⟩ := List.mem_map.mp ha
      have : isConnected st t.id = true := by
        simp only [isConnected, List.any_eq_true]
        exact ⟨t, ht, by simp⟩
      rw [hid, hc] at this
      exact absurd this (by simp)
    · simp only [idle, if_true]; exact hn
  | authenticate sid username =>
    simp only [step]
    split_ifs
    · rw [onAuthenticate_socket_ids]; exact hn
    · exact hn
  | sendMessage sid data =>
    simp only [step]
    split_ifs
    · rw [onSendMessage_sockets]; exact hn
    · exact hn
  | createChannel sid data =>
    simp only [step]
    split_ifs
    · rw [onCreateChannel_sockets]; exact hn
    · exact hn
  | getMessages sid channelId =>
    simp only [step, onGetMessages]
    split_ifs <;> exact hn
  | signaling sid sig =>
    simp only [step]
    split_ifs
    · rw [handleSignaling_state]; exact hn
    · exact hn
  | disconnect sid =>
    simp only [step]
    split_ifs
    · rw [onDisconnect_sockets]
      exact hn.sublist ((List.filter_sublist _).map _)
    · exact hn

theorem run_nodup_socket_ids (trace : List (Env × Event)) :
    ∀ st : ServerState, (st.sockets.map (fun t => t.id)).Nodup →
      ((run st trace).sockets.map (fun t => t.id)).Nodup := by
  induction trace with
  | nil => intro st hn; exact hn
  | cons e rest ih =>
    intro st hn
    exact ih _ (step_nodup_socket_ids st e.1 e.2 hn)

/-- In every reachable state the connected sockets have distinct ids. -/
theorem nodup_socket_ids_of_reachable (st : ServerState) (h : Reachable st) :
    (st.sockets.map (fun t => t.id)).Nodup := by
  obtain ⟨trace, rfl⟩ := h
  exact run_nodup_socket_ids trace ServerState.init List.nodup_nil

/-! ## C11, C12: `send-message` when the store write fails or the sender has no session -/

/-- C11 as stated fails.  After `twoHandlesTrace` socket `h1` is
authenticated; when `saveMessage` rejects, its `send-message` produces no
`new-message` delivery at all: the handler logs and stores nothing. -/
theorem C11_failed_save_broadcasts_nothing :
    socketUser (run ServerState.init twoHandlesTrace) "h1" =
      some { id := 1, username := "alice", avatar := "default.png" } ∧
    envSaveFails.faults.saveMessage = true ∧
    (step (run ServerState.init twoHandlesTrace) envSaveFails
      (.sendMessage "h1" hiData)).out = [] ∧
    (step (run ServerState.init twoHandlesTrace) envSaveFails
      (.sendMessage "h1" hiData)).logged = true := by
  decide

/-- C11 (amended).  For every authenticated socket and every `send-message`
event whose `saveMessage` fails, no `new-message` is delivered to anyone,
the state is left as it was, the failure is logged by the handler and no
error leaves it. -/
theorem C11_failed_save_is_logged_and_dropped (st : ServerState) (env : Env) (sid : String)
    (data : SendMessageData) (user : User)
    (hu : socketUser st sid = some user) (hfail : env.faults.saveMessage = true) :
    (onSendMessage st env sid data).out = [] ∧
    (onSendMessage st env sid data).state = st ∧
    (onSendMessage st env sid data).logged = true ∧
    (onSendMessage st env sid data).thrown = false := by
  unfold onSendMessage
  simp [hu, hfail]

/-- C11 (amended) after `twoHandlesTrace`, sender `h1`, `saveMessage` rejecting. -/
theorem C11_failed_save_is_logged_and_dropped_witness :
    (onSendMessage (run ServerState.init twoHandlesTrace) envSaveFails "h1" hiData).out = [] ∧
    (onSendMessage (run ServerState.init twoHandlesTrace) envSaveFails "h1" hiData).state =
      run ServerState.init twoHandlesTrace ∧
    (onSendMessage (run ServerState.init twoHandlesTrace) envSaveFails "h1" hiData).logged =
      true ∧
    (onSendMessage (run ServerState.init twoHandlesTrace) envSaveFails "h1" hiData).thrown =
      false :=
  C11_failed_save_is_logged_and_dropped (run ServerState.init twoHandlesTrace) envSaveFails
    "h1" hiData { id := 1, username := "alice", avatar := "default.png" }
    (by decide) (by decide)

/-- C12 as stated fails in a reachable state.  After `orphanSenderTrace`
identity 1 is not a key of the map, yet socket `h1`, which authenticated as
`alice` earlier, sends a message that is stored and broadcast. -/
theorem C12_unregistered_sender_still_posts :
    Reachable (run ServerState.init orphanSenderTrace) ∧
    mapGet (run ServerState.init orphanSenderTrace).connectedUsers 1 = none ∧
    (run ServerState.init orphanSenderTrace).connectedUsers = [] ∧
    socketUser (run ServerState.init orphanSenderTrace) "h1" =
      some { id := 1, username := "alice", avatar := "default.png" } ∧
    (step (run ServerState.init orphanSenderTrace) env1
      (.sendMessage "h1" hiData)).state.db.messages =
      [{ id := 1, user_id := 1, channel_id := "general", message := "hi", type := "text",
         created_at := 1 }] ∧
    (step (run ServerState.init orphanSenderTrace) env1 (.sendMessage "h1" hiData)).out =
      [{ socketId := "h1", payload := .newMessage
          { id := 1, user_id := 1, channel_id := "general", message := "hi",
            type := some "text", username := "alice", avatar := "default.png",
            created_at := env1.date } }] := by
  refine ⟨⟨orphanSenderTrace, rfl⟩, ?_, ?_, ?_, ?_, ?_⟩ <;> decide

/-- C12 (amended).  A `send-message` event on a socket that has not
authenticated (`socket.user` unset) is rejected: the state, the message
store included, is left as it was, nothing is delivered, nothing is logged
and no error is raised.  The handler does not read `connectedUsers`. -/
theorem C12_unauthenticated_send_is_rejected (st : ServerState) (env : Env) (sid : String)
    (data : SendMessageData) (hu : socketUser st sid = none) :
    (onSendMessage st env sid data).state = st ∧
    (onSendMessage st env sid data).out = [] ∧
    (onSendMessage st env sid data).logged = false ∧
    (onSendMessage st env sid data).thrown = false := by
  unfold onSendMessage
  simp [hu]

/-- C12 (amended) after `lurkerTrace`: `h3` never authenticated. -/
theorem C12_unauthenticated_send_is_rejected_witness :
    (onSendMessage (run ServerState.init lurkerTrace) env1 "h3" hiData).state =
      run ServerState.init lurkerTrace ∧
    (onSendMessage (run ServerState.init lurkerTrace) env1 "h3" hiData).out = [] ∧
    (onSendMessage (run ServerState.init lurkerTrace) env1 "h3" hiData).logged = false ∧
    (onSendMessage (run ServerState.init lurkerTrace) env1 "h3" hiData).thrown = false :=
  C12_unauthenticated_send_is_rejected (run ServerState.init lurkerTrace) env1 "h3" hiData
    (by decide)

/-! ## C13: signaling on a socket without a session -/

/-- On a socket whose `socket.user` is unset, each signaling handler that
builds its payload from `socket.user.id` raises a `TypeError` before it
emits. -/
theorem handleSignaling_unauthenticated_throws (st : ServerState) (sid : String)
    (sig : Signal) (hu : socketUser st sid = none)
    (hkind : ∀ target candidate, sig ≠ .webrtcIceCandidate target candidate) :
    (handleSignaling st sid sig).thrown = true ∧ (handleSignaling st sid sig).out = [] := by
  cases sig with
  | webrtcIceCandidate target candidate => exact absurd rfl (hkind target candidate)
  | webrtcOffer target offer => simp [handleSignaling, hu, typeError]
  | webrtcAnswer target answer => simp [handleSignaling, hu, typeError]
  | mediaToggle a v => simp [handleSignaling, hu, typeError]
  | startScreenShare => simp [handleSignaling, hu, typeError]
  | stopScreenShare => simp [handleSignaling, hu, typeError]
  | voiceActivity isSpeaking => simp [handleSignaling, hu, typeError]

/-- C13 evaluated on the code.  After `lurkerTrace` socket `h3` is connected
and has no session.  Its `media-toggle` and its `webrtc-offer` each end in an
exception that leaves the handler; its `webrtc-ice-candidate` aimed at
socket `h1` is delivered to `h1`. -/
theorem C13_unauthenticated_signaling_throws_or_relays :
    socketUser (run ServerState.init lurkerTrace) "h3" = none ∧
    isConnected (run ServerState.init lurkerTrace) "h3" = true ∧
    (step (run ServerState.init lurkerTrace) env1
      (.signaling "h3" (.mediaToggle "true" "false"))).thrown = true ∧
    (step (run ServerState.init lurkerTrace) env1
      (.signaling "h3" (.webrtcOffer (.str "h1") "sdp"))).thrown = true ∧
    (step (run ServerState.init lurkerTrace) env1
      (.signaling "h3" (.webrtcIceCandidate (.str "h1") "cand"))).out =
        [{ socketId := "h1", payload := .webrtcIceCandidate "cand" }] := by
  decide

/-! ## C14: order of the presence payload -/

theorem sorted_getOnlineUsers (db : Database) :
    (getOnlineUsers db).Pairwise (fun a b => a.username ≤ b.username) := by
  haveI : IsTotal OnlineUser (fun a b => a.username ≤ b.username) :=
    ⟨fun a b => le_total a.username b.username⟩
  haveI : IsTrans OnlineUser (fun a b => a.username ≤ b.username) :=
    ⟨fun _ _ _ hab hbc => le_trans hab hbc⟩
  unfold getOnlineUsers
  exact List.sorted_insertionSort (fun a b : OnlineUser => a.username ≤ b.username) _

/-- Every `users-update` payload that a handler emits is the result of
`getOnlineUsers` on some store. -/
theorem usersUpdate_is_getOnlineUsers (st : ServerState) (env : Env) (ev : Event)
    (d : Delivery) (l : List OnlineUser)
    (hd : d ∈ (step st env ev).out) (hp : d.payload = .usersUpdate l) :
    ∃ db : Database, l = getOnlineUsers db := by
  cases ev with
  | register username password => simp [step, idle] at hd
  | login username password => simp [step, idle] at hd
  | connection sid =>
    simp only [step] at hd
    split_ifs at hd <;> simp [idle] at hd
  | authenticate sid username =>
    simp only [step] at hd
    split_ifs at hd
    · unfold onAuthenticate at hd
      cases hfu : env.faults.findUser
      · rw [hfu] at hd
        cases hfind : findUser st.db username with
        | none => simp [hfind] at hd
        | some user =>
          simp only [hfind] at hd
          cases h1 : env.faults.updateUserStatus <;> cases h2 : env.faults.getOnlineUsers <;>
            cases h3 : env.faults.getChannels <;>
            simp [h1, h2, h3, ioEmit, socketEmit] at hd
          · rcases hd with ⟨t, _, rfl⟩ | rfl
            · simp only [Payload.usersUpdate.injEq] at hp
              exact ⟨_, hp.symm⟩
            · simp at hp
          · obtain ⟨t, _, rfl⟩ := hd
            simp only [Payload.usersUpdate.injEq] at hp
            exact ⟨_, hp.symm⟩
      · simp [hfu] at hd
    · simp [idle] at hd
  | sendMessage sid data =>
    simp only [step] at hd
    split_ifs at hd
    · unfold onSendMessage at hd
      cases hu : socketUser st sid with
      | none => simp [hu] at hd
      | some user =>
        simp only [hu] at hd
        cases h1 : env.faults.saveMessage <;> simp [h1, ioEmit] at hd
        obtain ⟨t, _, rfl⟩ := hd
        simp at hp
    · simp [idle] at hd
  | createChannel sid data =>
    simp only [step] at hd
    split_ifs at hd
    · unfold onCreateChannel at hd
      cases hu : socketUser st sid with
      | none => simp [hu] at hd
      | some user =>
        simp only [hu] at hd
        cases h1 : env.faults.createChannel <;> simp [h1, ioEmit] at hd
        obtain ⟨t, _, rfl⟩ := hd
        simp at hp
    · simp [idle] at hd
  | getMessages sid channelId =>
    simp only [step] at hd
    split_ifs at hd
    · unfold onGetMessages at hd
      cases h1 : env.faults.getChannelMessages <;> simp [h1, socketEmit] at hd
      subst hd
      simp at hp
    · simp [idle] at hd
  | signaling sid sig =>
    simp only [step] at hd
    split_ifs at hd
    · cases sig <;> simp only [handleSignaling] at hd <;>
        first
        | (cases hu : socketUser st sid <;> simp only [hu, typeError] at hd <;>
            first
            | exact absurd hd (List.not_mem_nil _)
            | (simp only [socketToEmit, socketBroadcastEmit, List.mem_map] at hd
               obtain ⟨t, _, rfl⟩ := hd
               simp at hp))
        | (simp only [socketToEmit, List.mem_map] at hd
           obtain ⟨t, _, rfl⟩ := hd
           simp at hp)
    · simp [idle] at hd
  | disconnect sid =>
    simp only [step] at hd
    split_ifs at hd
    · unfold onDisconnect at hd
      cases hu : socketUser st sid with
      | none => simp [hu] at hd
      | some user =>
        simp only [hu] at hd
        cases h1 : env.faults.updateUserStatus <;> cases h2 : env.faults.getOnlineUsers <;>
          simp [h1, h2, ioEmit] at hd
        obtain ⟨t, _, rfl⟩ := hd
        simp only [Payload.usersUpdate.injEq] at hp
        exact ⟨_, hp.symm⟩
    · simp [idle] at hd

/-- C14.  For every account store the list returned by `getOnlineUsers` is
in non-decreasing lexicographic order of `username`, and so is the payload
of every `users-update` event that any handler emits. -/
theorem C14_online_users_sorted_by_username :
    (∀ db : Database, (getOnlineUsers db).Pairwise (fun a b => a.username ≤ b.username)) ∧
    ∀ (st : ServerState) (env : Env) (ev : Event) (d : Delivery) (l : List OnlineUser),
      d ∈ (step st env ev).out → d.payload = .usersUpdate l →
      l.Pairwise (fun a b => a.username ≤ b.username) := by
  refine ⟨sorted_getOnlineUsers, ?_⟩
  intro st env ev d l hd hp
  obtain ⟨db, rfl⟩ := usersUpdate_is_getOnlineUsers st env ev d l hd hp
  exact sorted_getOnlineUsers db

/-- C14 at a concrete event: after `twoUsersTrace` the `disconnect` of `h1`
sends `h2` the payload `[bob]`. -/
theorem C14_online_users_sorted_by_username_witness :
    ([{ id := 2, username := "bob", avatar := "default.png", status := "online" }] :
        List OnlineUser).Pairwise (fun a b => a.username ≤ b.username) :=
  C14_online_users_sorted_by_username.2 (run ServerState.init twoUsersTrace) env1
    (.disconnect "h1")
    { socketId := "h2", payload := .usersUpdate
        [{ id := 2, username := "bob", avatar := "default.png", status := "online" }] }
    _
    (by
      have hout : (step (run ServerState.init twoUsersTrace) env1 (.disconnect "h1")).out =
          [{ socketId := "h2", payload := .usersUpdate
              [{ id := 2, username := "bob", avatar := "default.png",
                 status := "online" }] }] := by decide
      rw [hout]
      exact List.mem_cons_self _ _)
    rfl

/-! ## C16: the handlers that leave `connectedUsers` alone -/

theorem onSendMessage_connectedUsers (st : ServerState) (env : Env) (sid : String)
    (data : SendMessageData) :
    (onSendMessage st env sid data).state.connectedUsers = st.connectedUsers := by
  unfold onSendMessage
  cases socketUser st sid with
  | none => rfl
  | some user => cases env.faults.saveMessage <;> rfl

theorem onCreateChannel_connectedUsers (st : ServerState) (env : Env) (sid : String)
    (data : CreateChannelData) :
    (onCreateChannel st env sid data).state.connectedUsers = st.connectedUsers := by
  unfold onCreateChannel
  cases socketUser st sid with
  | none => rfl
  | some user => cases env.faults.createChannel <;> rfl

theorem onGetMessages_state (st : ServerState) (env : Env) (sid channelId : String) :
    (onGetMessages st env sid channelId).state = st := by
  unfold onGetMessages
  cases env.faults.getChannelMessages <;> rfl

theorem apiRegister_connectedUsers (st : ServerState) (env : Env)
    (username password : String) :
    (apiRegister st env username password).1.connectedUsers = st.connectedUsers := by
  unfold apiRegister
  cases createUser st.db env.now username password with
  | none => split_ifs <;> rfl
  | some created => split_ifs <;> rfl

theorem apiLogin_connectedUsers (st : ServerState) (env : Env) (username password : String) :
    (apiLogin st env username password).1.connectedUsers = st.connectedUsers := by
  unfold apiLogin
  cases validateUser st.db username password with
  | none => split_ifs <;> rfl
  | some user => split_ifs <;> rfl

/-- C16.  For every server state, the handlers of `send-message`,
`create-channel`, `get-messages` and of the seven signaling events leave
`connectedUsers` equal to what it was; and so does every reaction other than
`authenticate` and `disconnect`. -/
theorem C16_registry_frame (st : ServerState) (env : Env) :
    (∀ sid data, (onSendMessage st env sid data).state.connectedUsers = st.connectedUsers) ∧
    (∀ sid data, (onCreateChannel st env sid data).state.connectedUsers = st.connectedUsers) ∧
    (∀ sid channelId,
      (onGetMessages st env sid channelId).state.connectedUsers = st.connectedUsers) ∧
    (∀ sid sig, (handleSignaling st sid sig).state.connectedUsers = st.connectedUsers) ∧
    (∀ ev : Event, ev.isAuthenticateOrDisconnect = false →
      (step st env ev).state.connectedUsers = st.connectedUsers) := by
  refine ⟨onSendMessage_connectedUsers st env, onCreateChannel_connectedUsers st env,
    fun sid channelId => by rw [onGetMessages_state], fun sid sig => by
      rw [handleSignaling_state], ?_⟩
  intro ev hev
  cases ev with
  | register username password => simp only [step, idle, apiRegister_connectedUsers]
  | login username password => simp only [step, idle, apiLogin_connectedUsers]
  | connection sid => simp only [step]; split_ifs <;> rfl
  | authenticate sid username => simp [Event.isAuthenticateOrDisconnect] at hev
  | sendMessage sid data =>
    simp only [step]; split_ifs
    · exact onSendMessage_connectedUsers st env sid data
    · rfl
  | createChannel sid data =>
    simp only [step]; split_ifs
    · exact onCreateChannel_connectedUsers st env sid data
    · rfl
  | getMessages sid channelId =>
    simp only [step]; split_ifs
    · rw [onGetMessages_state]
    · rfl
  | signaling sid sig =>
    simp only [step]; split_ifs
    · rw [handleSignaling_state]
    · rfl
  | disconnect sid => simp [Event.isAuthenticateOrDisconnect] at hev

/-- C16 after `twoUsersTrace`: a `send-message` from `h1` leaves the map alone. -/
theorem C16_registry_frame_witness :
    (step (run ServerState.init twoUsersTrace) env1
      (.sendMessage "h1" hiData)).state.connectedUsers =
      (run ServerState.init twoUsersTrace).connectedUsers :=
  (C16_registry_frame (run ServerState.init twoUsersTrace) env1).2.2.2.2
    (.sendMessage "h1" hiData) (by decide)

/-! ## C17: `create-channel` -/

/-- C17.  On an authenticated socket, a `create-channel` event whose store
write succeeds appends exactly one row to `channels`, with the given name
and type, `created_by` the socket's identity id and a fresh store-assigned
id, touches no other table, and delivers to every connected socket (every
live session among them) one `channel-created` descriptor with that id and
the given name and type.  On a socket with no session it changes nothing and
delivers nothing. -/
theorem C17_create_channel (st : ServerState) (env : Env) (sid : String)
    (data : CreateChannelData) :
    (∀ user, socketUser st sid = some user → env.faults.createChannel = false →
      ∃ row : ChannelRow,
        (onCreateChannel st env sid data).state.db.channels = st.db.channels ++ [row] ∧
        row.name = data.name ∧ row.type = data.type ∧ row.created_by = some user.id ∧
        (∀ c ∈ st.db.channels, c.id < row.id) ∧
        (onCreateChannel st env sid data).state.db.users = st.db.users ∧
        (onCreateChannel st env sid data).state.db.messages = st.db.messages ∧
        (onCreateChannel st env sid data).out =
          st.sockets.map (fun t =>
            { socketId := t.id
              payload := .channelCreated
                { id := row.id, name := data.name, type := data.type } }) ∧
        (∀ t ∈ st.sockets,
          ({ socketId := t.id
             payload := .channelCreated
               { id := row.id, name := data.name, type := data.type } } : Delivery) ∈
            (onCreateChannel st env sid data).out)) ∧
    (socketUser st sid = none →
      (onCreateChannel st env sid data).state = st ∧
      (onCreateChannel st env sid data).out = []) := by
  constructor
  · intro user hu hok
    have hout : (onCreateChannel st env sid data).out =
        st.sockets.map (fun t =>
          { socketId := t.id
            payload := .channelCreated
              { id := lastID (st.db.channels.map (fun c => c.id)), name := data.name,
                type := data.type } }) := by
      unfold onCreateChannel
      simp [hu, hok, ioEmit, createChannel]
    refine ⟨{ id := lastID (st.db.channels.map (fun c => c.id)), name := data.name,
              type := data.type, created_by := some user.id, created_at := env.now },
      ?_, rfl, rfl, rfl, ?_, ?_, ?_, hout, ?_⟩
    · unfold onCreateChannel
      simp [hu, hok, createChannel]
    · intro c hc
      exact lt_lastID _ c.id (List.mem_map_of_mem (fun c => c.id) hc)
    · unfold onCreateChannel
      simp [hu, hok, createChannel]
    · unfold onCreateChannel
      simp [hu, hok, createChannel]
    · intro t ht
      rw [hout]
      exact List.mem_map.mpr ⟨t, ht, rfl⟩
  · intro hu
    unfold onCreateChannel
    simp [hu]

/-- C17 after `twoUsersTrace`: `alice` on `h1` creates the voice channel
`games`; `h1` and `h2` both receive the descriptor with id 1. -/
theorem C17_create_channel_witness :
    ∃ row : ChannelRow,
      (onCreateChannel (run ServerState.init twoUsersTrace) env1 "h1"
        { name := "games", type := "voice" }).state.db.channels =
        (run ServerState.init twoUsersTrace).db.channels ++ [row] ∧
      row.name = "games" ∧ row.type = "voice" ∧ row.created_by = some 1 ∧
      (∀ c ∈ (run ServerState.init twoUsersTrace).db.channels, c.id < row.id) ∧
      (onCreateChannel (run ServerState.init twoUsersTrace) env1 "h1"
        { name := "games", type := "voice" }).state.db.users =
        (run ServerState.init twoUsersTrace).db.users ∧
      (onCreateChannel (run ServerState.init twoUsersTrace) env1 "h1"
        { name := "games", type := "voice" }).state.db.messages =
        (run ServerState.init twoUsersTrace).db.messages ∧
      (onCreateChannel (run ServerState.init twoUsersTrace) env1 "h1"
        { name := "games", type := "voice" }).out =
        (run ServerState.init twoUsersTrace).sockets.map (fun t =>
          { socketId := t.id
            payload := .channelCreated { id := row.id, name := "games", type := "voice" } }) ∧
      (∀ t ∈ (run ServerState.init twoUsersTrace).sockets,
        ({ socketId := t.id
           payload := .channelCreated
             { id := row.id, name := "games", type := "voice" } } : Delivery) ∈
          (onCreateChannel (run ServerState.init twoUsersTrace) env1 "h1"
            { name := "games", type := "voice" }).out) :=
  (C17_create_channel (run ServerState.init twoUsersTrace) env1 "h1"
    { name := "games", type := "voice" }).1
    { id := 1, username := "alice", avatar := "default.png" } (by decide) (by decide)

/-! ## C19: `get-messages` on a socket without a session -/

/-- C19 as stated fails.  After `lurkerTrace` socket `h3` has no session;
its `get-messages` for `general` is answered with a `messages-history`
reply. -/
theorem C19_unauthenticated_history_is_answered :
    socketUser (run ServerState.init lurkerTrace) "h3" = none ∧
    (step (run ServerState.init lurkerTrace) env1 (.getMessages "h3" "general")).out =
      [{ socketId := "h3", payload := .messagesHistory "general" [] }] := by
  decide

/-- C19 (amended).  A `get-messages` event is answered whether or not the
socket has a session: when the store read succeeds, the requesting socket,
and no other, receives one `messages-history` reply that carries the channel
id and the result of `getChannelMessages` with the default limit 100; the
state is unchanged. -/
theorem C19_history_is_answered_without_session (st : ServerState) (env : Env)
    (sid channelId : String) (hok : env.faults.getChannelMessages = false) :
    (onGetMessages st env sid channelId).out =
      [{ socketId := sid
         payload := .messagesHistory channelId (getChannelMessages st.db channelId 100) }] ∧
    (onGetMessages st env sid channelId).state = st ∧
    (onGetMessages st env sid channelId).thrown = false := by
  unfold onGetMessages
  simp [hok, socketEmit]

/-- C19 (amended) after `lurkerTrace`, on the socket `h3` that never
authenticated. -/
theorem C19_history_is_answered_without_session_witness :
    socketUser (run ServerState.init lurkerTrace) "h3" = none ∧
    ((onGetMessages (run ServerState.init lurkerTrace) env1 "h3" "general").out =
      [{ socketId := "h3"
         payload := .messagesHistory "general"
           (getChannelMessages (run ServerState.init lurkerTrace).db "general" 100) }] ∧
    (onGetMessages (run ServerState.init lurkerTrace) env1 "h3" "general").state =
      run ServerState.init lurkerTrace ∧
    (onGetMessages (run ServerState.init lurkerTrace) env1 "h3" "general").thrown = false) :=
  ⟨by decide,
   C19_history_is_answered_without_session (run ServerState.init lurkerTrace) env1 "h3"
    "general" (by decide)⟩

/-! ## C18: re-authentication of one socket under a second identity -/

/-- After `authenticate` any username that resolved before still resolves to
a row with the same id, name and avatar. -/
theorem findUser_after_onAuthenticate_other (st : ServerState) (env : Env)
    (sid name : String) (user : UserRow) (hf : env.faults.findUser = false)
    (hfind : findUser st.db name = some user) (name2 : String) (u2 : UserRow)
    (h2 : findUser st.db name2 = some u2) :
    ∃ row, findUser (onAuthenticate st env sid name).state.db name2 = some row ∧
      row.id = u2.id ∧ row.username = u2.username ∧ row.avatar = u2.avatar := by
  rcases (onAuthenticate_found st env sid name user hf hfind).2.2 with h | h
  · exact ⟨u2, by rw [h]; exact h2, rfl, rfl, rfl⟩
  · rw [h, findUser_updateUserStatus, h2]
    by_cases hid : u2.id = user.id
    · exact ⟨_, rfl, by simp [hid], by simp [hid], by simp [hid]⟩
    · exact ⟨_, rfl, by simp [hid], by simp [hid], by simp [hid]⟩

theorem isConnected_after_onDisconnect (st : ServerState) (env : Env) (sid : String) :
    isConnected (onDisconnect st env sid).state sid = false := by
  unfold isConnected
  rw [onDisconnect_sockets, List.any_eq_false]
  intro t ht
  have hne := (List.mem_filter.mp ht).2
  simpa using hne

/-- C18 as stated fails in a reachable state.  After `reauthTrace` socket
`h1` has authenticated as `alice` (id 1) and then as `bob` (id 2): its
current identity is `bob`, yet the map still holds `alice` on `h1`.  After
`h1` disconnects `alice` is still a key, on a socket that is gone. -/
theorem C18_first_identity_stays_mapped :
    Reachable (run ServerState.init reauthTrace) ∧
    socketUser (run ServerState.init reauthTrace) "h1" =
      some { id := 2, username := "bob", avatar := "default.png" } ∧
    mapGet (run ServerState.init reauthTrace).connectedUsers 1 =
      some { socketId := "h1",
             user := { id := 1, username := "alice", avatar := "default.png" } } ∧
    mapGet (step (run ServerState.init reauthTrace) env1
      (.disconnect "h1")).state.connectedUsers 1 =
      some { socketId := "h1",
             user := { id := 1, username := "alice", avatar := "default.png" } } ∧
    isConnected (step (run ServerState.init reauthTrace) env1 (.disconnect "h1")).state "h1" =
      false := by
  refine ⟨⟨reauthTrace, rfl⟩, ?_, ?_, ?_, ?_⟩ <;> decide

/-- C18 (amended).  A session is not destroyed on re-authentication.  After
a connected socket authenticates as identity `u1` and then as a different
identity `u2`, its current identity is `u2` and the map holds both `u1` and
`u2` on that socket.  After that socket disconnects, with the status write
going through, `u2` is no longer a key, `u1` still is, and the socket it
names is no longer connected. -/
theorem C18_reauthentication_keeps_first_identity (st : ServerState) (e1 e2 e3 : Env)
    (sid name1 name2 : String) (u1 u2 : UserRow)
    (hc : isConnected st sid = true)
    (hfind1 : findUser st.db name1 = some u1) (hfind2 : findUser st.db name2 = some u2)
    (hne : u1.id ≠ u2.id)
    (hf1 : e1.faults.findUser = false) (hf2 : e2.faults.findUser = false)
    (hf3 : e3.faults.updateUserStatus = false) :
    socketUser (onAuthenticate (onAuthenticate st e1 sid name1).state e2 sid name2).state sid =
      some { id := u2.id, username := u2.username, avatar := u2.avatar } ∧
    mapGet (onAuthenticate (onAuthenticate st e1 sid name1).state e2 sid
        name2).state.connectedUsers u1.id =
      some { socketId := sid,
             user := { id := u1.id, username := u1.username, avatar := u1.avatar } } ∧
    mapGet (onAuthenticate (onAuthenticate st e1 sid name1).state e2 sid
        name2).state.connectedUsers u2.id =
      some { socketId := sid,
             user := { id := u2.id, username := u2.username, avatar := u2.avatar } } ∧
    mapGet (onDisconnect (onAuthenticate (onAuthenticate st e1 sid name1).state e2 sid
        name2).state e3 sid).state.connectedUsers u2.id = none ∧
    mapGet (onDisconnect (onAuthenticate (onAuthenticate st e1 sid name1).state e2 sid
        name2).state e3 sid).state.connectedUsers u1.id =
      some { socketId := sid,
             user := { id := u1.id, username := u1.username, avatar := u1.avatar } } ∧
    isConnected (onDisconnect (onAuthenticate (onAuthenticate st e1 sid name1).state e2 sid
        name2).state e3 sid).state sid = false := by
  obtain ⟨row, hfindrow, hid, hun, hav⟩ :=
    findUser_after_onAuthenticate_other st e1 sid name1 u1 hf1 hfind1 name2 u2 hfind2
  have A1 := onAuthenticate_found st e1 sid name1 u1 hf1 hfind1
  have A2 := onAuthenticate_found (onAuthenticate st e1 sid name1).state e2 sid name2 row
    hf2 hfindrow
  rw [hid, hun, hav] at A2
  have hs2 := A2.1
  rw [A1.1] at hs2
  have hu : socketUser
      (onAuthenticate (onAuthenticate st e1 sid name1).state e2 sid name2).state sid =
      some { id := u2.id, username := u2.username, avatar := u2.avatar } := by
    apply socketUser_of_find
    rw [hs2]
    apply find_setSocketUser_self
    rw [any_setSocketUser]
    exact hc
  have hm1 : mapGet (onAuthenticate (onAuthenticate st e1 sid name1).state e2 sid
        name2).state.connectedUsers u1.id =
      some { socketId := sid,
             user := { id := u1.id, username := u1.username, avatar := u1.avatar } } := by
    rw [A2.2.1, mapGet_mapSet_other _ _ _ _ hne, A1.2.1]
    exact mapGet_mapSet_self _ _ _
  refine ⟨hu, hm1, ?_, ?_, ?_, isConnected_after_onDisconnect _ _ _⟩
  · rw [A2.2.1]
    exact mapGet_mapSet_self _ _ _
  · rw [onDisconnect_connectedUsers _ e3 sid _ hu hf3]
    exact mapGet_mapDelete_self _ _
  · rw [onDisconnect_connectedUsers _ e3 sid _ hu hf3]
    rw [mapGet_mapDelete_other _ _ _ hne]
    exact hm1

/-- C18 (amended) at a concrete state: accounts `alice` and `bob`, socket `h1`. -/
theorem C18_reauthentication_keeps_first_identity_witness :
    mapGet (onDisconnect (onAuthenticate (onAuthenticate
        (run ServerState.init [(env1, .register "alice" "secret"),
          (env1, .register "bob" "hunter2"), (env1, .connection "h1")])
        env1 "h1" "alice").state env1 "h1" "bob").state env1 "h1").state.connectedUsers 1 =
      some { socketId := "h1",
             user := { id := 1, username := "alice", avatar := "default.png" } } :=
  (C18_reauthentication_keeps_first_identity
    (run ServerState.init [(env1, .register "alice" "secret"),
      (env1, .register "bob" "hunter2"), (env1, .connection "h1")])
    env1 env1 env1 "h1" "alice" "bob"
    { id := 1, username := "alice", password := bcryptHash "secret", avatar := "default.png",
      status := "online", last_seen := 1, created_at := 1 }
    { id := 2, username := "bob", password := bcryptHash "hunter2", avatar := "default.png",
      status := "online", last_seen := 1, created_at := 1 }
    (by decide) (by decide) (by decide) (by decide) (by decide) (by decide)
    (by decide)).2.2.2.2.1

/-! ## C20: media rooms -/

theorem connectionsGet_set_self (m : List (Room × List Nat)) (r : Room) (v : List Nat) :
    connectionsGet (connectionsSet m r v) r = some v := by
  induction m with
  | nil => simp [connectionsSet, connectionsGet]
  | cons e rest ih =>
    obtain ⟨k0, v0⟩ := e
    by_cases h : k0 = r
    · simp [connectionsSet, connectionsGet, h]
    · simp [connectionsSet, connectionsGet, h, ih]

theorem connectionsGet_set_other (m : List (Room × List Nat)) (r other : Room)
    (v : List Nat) (hne : other ≠ r) :
    connectionsGet (connectionsSet m r v) other = connectionsGet m other := by
  induction m with
  | nil => simp [connectionsSet, connectionsGet, Ne.symm hne]
  | cons e rest ih =>
    obtain ⟨k0, v0⟩ := e
    by_cases h : k0 = r
    · subst h
      simp [connectionsSet, connectionsGet, Ne.symm hne]
    · by_cases h2 : k0 = other
      · subst h2
        simp [connectionsSet, connectionsGet, hne]
      · simp [connectionsSet, connectionsGet, h, h2, ih]

theorem connectionsGet_remove_self (m : List (Room × List Nat)) (r : Room) :
    connectionsGet (m.filter (fun e => e.1 != r)) r = none := by
  induction m with
  | nil => simp [connectionsGet]
  | cons e rest ih =>
    obtain ⟨k0, v0⟩ := e
    by_cases h : k0 = r
    · simpa [List.filter_cons, h] using ih
    · simpa [List.filter_cons, h, connectionsGet] using ih

theorem connectionsGet_remove_other (m : List (Room × List Nat)) (r other : Room)
    (hne : other ≠ r) :
    connectionsGet (m.filter (fun e => e.1 != r)) other = connectionsGet m other := by
  induction m with
  | nil => simp [connectionsGet]
  | cons e rest ih =>
    obtain ⟨k0, v0⟩ := e
    by_cases h : k0 = r
    · subst h
      simpa [List.filter_cons, connectionsGet, Ne.symm hne] using ih
    · by_cases h2 : k0 = other
      · subst h2
        simp [List.filter_cons, connectionsGet, hne]
      · simpa [List.filter_cons, connectionsGet, h, h2] using ih

theorem connectionsSet_of_not_has (m : List (Room × List Nat)) (r : Room) (v : List Nat)
    (h : connectionsHas m r = false) : connectionsSet m r v = m ++ [(r, v)] := by
  induction m with
  | nil => rfl
  | cons e rest ih =>
    obtain ⟨k0, v0⟩ := e
    simp only [connectionsHas, List.any_cons, Bool.or_eq_false_iff, beq_eq_false_iff_ne,
      ne_eq] at h
    have ih2 := ih (by simpa [connectionsHas] using h.2)
    simp [connectionsSet, h.1, ih2]

theorem connectionsSet_append_self (m : List (Room × List Nat)) (r : Room)
    (v v2 : List Nat) (h : connectionsHas m r = false) :
    connectionsSet (m ++ [(r, v)]) r v2 = m ++ [(r, v2)] := by
  induction m with
  | nil => simp [connectionsSet]
  | cons e rest ih =>
    obtain ⟨k0, v0⟩ := e
    simp only [connectionsHas, List.any_cons, Bool.or_eq_false_iff, beq_eq_false_iff_ne,
      ne_eq] at h
    have ih2 := ih (by simpa [connectionsHas] using h.2)
    simp [connectionsSet, h.1, ih2]

theorem connectionsGet_append_self (m : List (Room × List Nat)) (r : Room) (v : List Nat)
    (h : connectionsHas m r = false) : connectionsGet (m ++ [(r, v)]) r = some v := by
  rw [← connectionsSet_of_not_has m r v h]
  exact connectionsGet_set_self m r v

theorem connectionsHas_append_self (m : List (Room × List Nat)) (r : Room) (v : List Nat) :
    connectionsHas (m ++ [(r, v)]) r = true := by
  simp [connectionsHas]

theorem remove_append_self (m : List (Room × List Nat)) (r : Room) (v : List Nat)
    (h : connectionsHas m r = false) :
    (m ++ [(r, v)]).filter (fun e => e.1 != r) = m := by
  rw [List.filter_append]
  have h1 : m.filter (fun e => e.1 != r) = m := by
    rw [List.filter_eq_self]
    intro e he
    simp only [connectionsHas, List.any_eq_false, beq_iff_eq] at h
    simpa using h e he
  simp [h1]

theorem not_mem_setDelete (members : List Nat) (userId : Nat) :
    userId ∉ setDelete members userId := by
  simp [setDelete]

/-- The room a user has just left: either gone, or still there with at
least one member, none of them that user. -/
theorem leaveMediaRoom_get_self (w : WebRTCManager) (roomId : Room) (userId : Nat)
    (members : List Nat)
    (h : connectionsGet (leaveMediaRoom w roomId userId).connections roomId = some members) :
    userId ∉ members ∧ members ≠ [] := by
  unfold leaveMediaRoom at h
  cases hhas : connectionsHas w.connections roomId with
  | false =>
    rw [hhas] at h
    simp only [Bool.false_eq_true, if_false] at h
    have hnone : connectionsGet w.connections roomId = none := by
      have := connectionsGet_remove_self w.connections roomId
      have hself : w.connections.filter (fun e => e.1 != roomId) = w.connections := by
        rw [List.filter_eq_self]
        intro e he
        simp only [connectionsHas, List.any_eq_false, beq_iff_eq] at hhas
        simpa using hhas e he
      rwa [hself] at this
    rw [hnone] at h
    exact absurd h (by simp)
  | true =>
    rw [hhas] at h
    simp only [if_true] at h
    cases hget : connectionsGet w.connections roomId with
    | none =>
      rw [hget] at h
      simp only [hget] at h
      exact absurd h (by simp)
    | some old =>
      rw [hget] at h
      simp only at h
      by_cases hlen : (setDelete old userId).length = 0
      · rw [if_pos hlen] at h
        simp only [removeMediaRoom] at h
        rw [connectionsGet_remove_self] at h
        exact absurd h (by simp)
      · rw [if_neg hlen] at h
        simp only at h
        rw [connectionsGet_set_self] at h
        have hm : setDelete old userId = members := Option.some.inj h
        subst hm
        refine ⟨not_mem_setDelete old userId, ?_⟩
        intro hnil
        exact hlen (by rw [hnil]; rfl)

theorem leaveMediaRoom_get_other (w : WebRTCManager) (roomId other : Room) (userId : Nat)
    (hne : other ≠ roomId) :
    connectionsGet (leaveMediaRoom w roomId userId).connections other =
      connectionsGet w.connections other := by
  unfold leaveMediaRoom
  cases hhas : connectionsHas w.connections roomId with
  | false => simp
  | true =>
    simp only [if_true]
    cases hget : connectionsGet w.connections roomId with
    | none => simp
    | some old =>
      simp only
      by_cases hlen : (setDelete old userId).length = 0
      · rw [if_pos hlen]
        simp only [removeMediaRoom]
        rw [connectionsGet_remove_other _ _ _ hne, connectionsGet_set_other _ _ _ _ hne]
      · rw [if_neg hlen]
        simp only
        rw [connectionsGet_set_other _ _ _ _ hne]

theorem joinMediaRoom_get_other (w : WebRTCManager) (roomId other : Room) (userId : Nat)
    (hne : other ≠ roomId) :
    connectionsGet (joinMediaRoom w roomId userId).connections other =
      connectionsGet w.connections other := by
  unfold joinMediaRoom
  cases hhas : connectionsHas w.connections roomId with
  | true =>
    simp only [if_true]
    cases hget : connectionsGet w.connections roomId with
    | none => simp
    | some old =>
      simp only
      rw [connectionsGet_set_other _ _ _ _ hne]
  | false =>
    simp only [Bool.false_eq_true, if_false, createMediaRoom]
    rw [connectionsGet_set_self]
    simp only
    rw [connectionsGet_set_other _ _ _ _ hne, connectionsGet_set_other _ _ _ _ hne]

theorem join_then_leave (w : WebRTCManager) (roomId : Room) (userId : Nat)
    (h : connectionsHas w.connections roomId = false) :
    leaveMediaRoom (joinMediaRoom w roomId userId) roomId userId = w := by
  have hjoin : joinMediaRoom w roomId userId =
      { connections := w.connections ++ [(roomId, [userId])] } := by
    unfold joinMediaRoom
    simp only [h, Bool.false_eq_true, if_false, createMediaRoom]
    rw [connectionsGet_set_self]
    simp only
    rw [connectionsSet_of_not_has _ _ _ h, connectionsSet_append_self _ _ _ _ h]
    simp [setAdd]
  rw [hjoin]
  unfold leaveMediaRoom
  simp only [connectionsHas_append_self, if_true]
  rw [connectionsGet_append_self _ _ _ h]
  simp only
  have hdel : setDelete [userId] userId = [] := by simp [setDelete]
  rw [hdel]
  simp only [List.length_nil, if_true, removeMediaRoom]
  rw [connectionsSet_append_self _ _ _ _ h, remove_append_self _ _ _ h]

/-- C20.  For every state of the media rooms, room id and user id: after
`leaveMediaRoom(roomId, userId)` the room, when it is still present, has at
least one member and the user is not one of them (a room emptied by the
leave is removed), and every other room is as it was; `joinMediaRoom` too
leaves every other room as it was; and from a state without `roomId`,
`joinMediaRoom(roomId, u)` followed by `leaveMediaRoom(roomId, u)` gives
back the original `connections` map. -/
theorem C20_join_leave_media_room (w : WebRTCManager) (roomId : Room) (userId : Nat) :
    (∀ members,
      connectionsGet (leaveMediaRoom w roomId userId).connections roomId = some members →
        userId ∉ members ∧ members ≠ []) ∧
    (∀ other, other ≠ roomId →
      connectionsGet (leaveMediaRoom w roomId userId).connections other =
        connectionsGet w.connections other) ∧
    (∀ other, other ≠ roomId →
      connectionsGet (joinMediaRoom w roomId userId).connections other =
        connectionsGet w.connections other) ∧
    (connectionsHas w.connections roomId = false →
      leaveMediaRoom (joinMediaRoom w roomId userId) roomId userId = w) :=
  ⟨leaveMediaRoom_get_self w roomId userId,
   fun other hne => leaveMediaRoom_get_other w roomId other userId hne,
   fun other hne => joinMediaRoom_get_other w roomId other userId hne,
   join_then_leave w roomId userId⟩

/-- C20 at `lobbyManager`: user 3 joins and leaves the new room `x`; user 4
leaves `lobby`, which keeps user 7. -/
theorem C20_join_leave_media_room_witness :
    leaveMediaRoom (joinMediaRoom lobbyManager (.str "x") 3) (.str "x") 3 = lobbyManager ∧
    connectionsGet (leaveMediaRoom lobbyManager (.str "lobby") 4).connections (.str "lobby") =
      some [7] ∧
    (leaveMediaRoom (leaveMediaRoom lobbyManager (.str "lobby") 4) (.str "lobby")
      7).connections = [] :=
  ⟨(C20_join_leave_media_room lobbyManager (.str "x") 3).2.2.2 (by decide),
   by decide, by decide⟩

/-! ## C15: the presence payload and the keys of `connectedUsers` -/

theorem mapHas_mapSet (m : List (Nat × Session)) (k j : Nat) (v : Session)
    (h : mapHas (mapSet m k v) j = true) : j = k ∨ mapHas m j = true := by
  by_cases hjk : j = k
  · exact Or.inl hjk
  · right
    unfold mapHas at h ⊢
    rwa [mapGet_mapSet_other m k j v hjk] at h

theorem mapHas_mapDelete (m : List (Nat × Session)) (k j : Nat)
    (h : mapHas (mapDelete m k) j = true) : j ≠ k ∧ mapHas m j = true := by
  by_cases hjk : j = k
  · subst hjk
    unfold mapHas at h
    rw [mapGet_mapDelete_self] at h
    exact absurd h (by simp)
  · refine ⟨hjk, ?_⟩
    unfold mapHas at h ⊢
    rwa [mapGet_mapDelete_other m k j hjk] at h

theorem onlineInStore_updateUserStatus_other (db : Database) (now userId k : Nat)
    (status : String) (hne : k ≠ userId) (h : OnlineInStore db k) :
    OnlineInStore (updateUserStatus db now userId status) k := by
  obtain ⟨⟨row, hrow, hid⟩, hall⟩ := h
  have hrowne : ¬ row.id = userId := fun e => hne (hid ▸ e)
  constructor
  · refine ⟨row, ?_, hid⟩
    unfold updateUserStatus
    simp only [List.mem_map]
    exact ⟨row, hrow, by simp [hrowne]⟩
  · intro r hr hrid
    unfold updateUserStatus at hr
    simp only [List.mem_map] at hr
    obtain ⟨orig, horig, rfl⟩ := hr
    by_cases ho : orig.id = userId
    · simp only [ho, if_true] at hrid
      exact absurd hrid.symm hne
    · simp only [ho, if_false] at hrid ⊢
      exact hall orig horig hrid

theorem onlineInStore_updateUserStatus_online (db : Database) (now userId k : Nat)
    (h : OnlineInStore db k) : OnlineInStore (updateUserStatus db now userId "online") k := by
  by_cases hne : k = userId
  · subst hne
    obtain ⟨⟨row, hrow, hid⟩, _⟩ := h
    constructor
    · refine ⟨{ row with status := "online", last_seen := now }, ?_, hid⟩
      unfold updateUserStatus
      simp only [List.mem_map]
      exact ⟨row, hrow, by simp [hid]⟩
    · intro r hr hrid
      unfold updateUserStatus at hr
      simp only [List.mem_map] at hr
      obtain ⟨orig, _, rfl⟩ := hr
      by_cases ho : orig.id = k
      · simp [ho]
      · simp only [ho, if_false] at hrid
  · exact onlineInStore_updateUserStatus_other db now userId k "online" hne h

theorem onlineInStore_of_found (db : Database) (now : Nat) (name : String) (user : UserRow)
    (hfind : findUser db name = some user) :
    OnlineInStore (updateUserStatus db now user.id "online") user.id := by
  have hmem : user ∈ db.users := List.mem_of_find?_eq_some hfind
  constructor
  · refine ⟨{ user with status := "online", last_seen := now }, ?_, rfl⟩
    unfold updateUserStatus
    simp only [List.mem_map]
    exact ⟨user, hmem, by simp⟩
  · intro r hr hrid
    unfold updateUserStatus at hr
    simp only [List.mem_map] at hr
    obtain ⟨orig, _, rfl⟩ := hr
    by_cases ho : orig.id = user.id
    · simp [ho]
    · simp only [ho, if_false] at hrid

theorem onlineInStore_congr (db db2 : Database) (k : Nat) (hu : db2.users = db.users)
    (h : OnlineInStore db k) : OnlineInStore db2 k := by
  unfold OnlineInStore at h ⊢
  rw [hu]
  exact h

theorem onlineInStore_createUser (db : Database) (now : Nat) (username password : String)
    (created : Database × Nat) (hc : createUser db now username password = some created)
    (k : Nat) (h : OnlineInStore db k) : OnlineInStore created.1 k := by
  unfold createUser at hc
  split_ifs at hc
  simp only [Option.some.injEq] at hc
  subst hc
  obtain ⟨⟨row, hrow, hid⟩, hall⟩ := h
  constructor
  · exact ⟨row, List.mem_append_left _ hrow, hid⟩
  · intro r hr hrid
    simp only [List.mem_append, List.mem_singleton] at hr
    rcases hr with hr | rfl
    · exact hall r hr hrid
    · simp

theorem mem_getOnlineUsers_of_onlineInStore (db : Database) (k : Nat)
    (h : OnlineInStore db k) : ∃ u ∈ getOnlineUsers db, u.id = k := by
  obtain ⟨⟨row, hrow, hid⟩, hall⟩ := h
  refine ⟨{ id := row.id, username := row.username, avatar := row.avatar,
            status := row.status }, ?_, hid⟩
  unfold getOnlineUsers
  rw [List.mem_insertionSort]
  simp only [List.mem_map, List.mem_filter]
  exact ⟨row, ⟨hrow, by simpa using hall row hrow hid⟩, rfl⟩

/-- The outcome of `authenticate` when every store call resolves and the
username has a row. -/
theorem onAuthenticate_working (st : ServerState) (env : Env) (sid name : String)
    (user : UserRow) (henv : env.faults = Faults.none)
    (hfind : findUser st.db name = some user) :
    (onAuthenticate st env sid name).state.db =
      updateUserStatus st.db env.now user.id "online" ∧
    (onAuthenticate st env sid name).state.connectedUsers =
      mapSet st.connectedUsers user.id
        { socketId := sid,
          user := { id := user.id, username := user.username, avatar := user.avatar } } ∧
    ∀ d ∈ (onAuthenticate st env sid name).out, ∀ l, d.payload = .usersUpdate l →
      l = getOnlineUsers (updateUserStatus st.db env.now user.id "online") := by
  unfold onAuthenticate
  simp only [henv, Faults.none, hfind, Bool.false_eq_true, if_false]
  refine ⟨trivial, trivial, ?_⟩
  intro d hd l hp
  simp only [ioEmit, socketEmit, List.mem_append, List.mem_map, List.mem_singleton] at hd
  rcases hd with ⟨t, _, rfl⟩ | rfl
  · simp only [Payload.usersUpdate.injEq] at hp
    exact hp.symm
  · simp at hp

theorem onAuthenticate_unknown (st : ServerState) (env : Env) (sid name : String)
    (hfind : findUser st.db name = none) :
    (onAuthenticate st env sid name).state = st ∧ (onAuthenticate st env sid name).out = [] := by
  unfold onAuthenticate
  cases env.faults.findUser <;> simp [hfind]

theorem onDisconnect_unauthenticated (st : ServerState) (env : Env) (sid : String)
    (hu : socketUser st sid = none) :
    (onDisconnect st env sid).state.db = st.db ∧
    (onDisconnect st env sid).state.connectedUsers = st.connectedUsers ∧
    (onDisconnect st env sid).out = [] := by
  unfold onDisconnect
  simp [hu]

theorem onSendMessage_users (st : ServerState) (env : Env) (sid : String)
    (data : SendMessageData) :
    (onSendMessage st env sid data).state.db.users = st.db.users := by
  unfold onSendMessage
  cases socketUser st sid with
  | none => rfl
  | some user => cases env.faults.saveMessage <;> rfl

theorem onCreateChannel_users (st : ServerState) (env : Env) (sid : String)
    (data : CreateChannelData) :
    (onCreateChannel st env sid data).state.db.users = st.db.users := by
  unfold onCreateChannel
  cases socketUser st sid with
  | none => rfl
  | some user => cases env.faults.createChannel <;> rfl

theorem apiRegister_registryOnline (st : ServerState) (env : Env)
    (username password : String) (h : RegistryOnline st) :
    RegistryOnline (apiRegister st env username password).1 := by
  intro k hk
  rw [apiRegister_connectedUsers] at hk
  have hk2 := h k hk
  unfold apiRegister
  cases hc : createUser st.db env.now username password with
  | none => split_ifs <;> exact hk2
  | some created =>
    split_ifs
    · exact hk2
    · exact hk2
    · exact hk2
    · exact onlineInStore_createUser st.db env.now username password created hc k hk2

theorem apiLogin_registryOnline (st : ServerState) (env : Env) (username password : String)
    (h : RegistryOnline st) : RegistryOnline (apiLogin st env username password).1 := by
  intro k hk
  rw [apiLogin_connectedUsers] at hk
  have hk2 := h k hk
  unfold apiLogin
  cases validateUser st.db username password with
  | none => split_ifs <;> exact hk2
  | some user =>
    split_ifs
    · exact hk2
    · exact hk2
    · exact hk2
    · exact onlineInStore_updateUserStatus_online st.db env.now user.id k hk2

/-- One reaction with a working store keeps every key of `connectedUsers`
listed by the presence query. -/
theorem step_registryOnline (st : ServerState) (env : Env) (ev : Event)
    (henv : env.faults = Faults.none) (h : RegistryOnline st) :
    RegistryOnline (step st env ev).state := by
  cases ev with
  | register username password =>
    simp only [step, idle]; exact apiRegister_registryOnline st env username password h
  | login username password =>
    simp only [step, idle]; exact apiLogin_registryOnline st env username password h
  | connection sid =>
    simp only [step]
    split_ifs
    · exact h
    · exact h
  | authenticate sid username =>
    simp only [step]
    split_ifs
    · cases hfind : findUser st.db username with
      | none =>
        rw [(onAuthenticate_unknown st env sid username hfind).1]
        exact h
      | some user =>
        obtain ⟨hdb, hmap, _⟩ := onAuthenticate_working st env sid username user henv hfind
        intro k hk
        rw [hmap] at hk
        rw [hdb]
        rcases mapHas_mapSet _ _ _ _ hk with rfl | hk2
        · exact onlineInStore_of_found st.db env.now username user hfind
        · exact onlineInStore_updateUserStatus_online st.db env.now user.id k (h k hk2)
    · exact h
  | sendMessage sid data =>
    simp only [step]
    split_ifs
    · intro k hk
      rw [onSendMessage_connectedUsers] at hk
      exact onlineInStore_congr st.db _ k (onSendMessage_users st env sid data) (h k hk)
    · exact h
  | createChannel sid data =>
    simp only [step]
    split_ifs
    · intro k hk
      rw [onCreateChannel_connectedUsers] at hk
      exact onlineInStore_congr st.db _ k (onCreateChannel_users st env sid data) (h k hk)
    · exact h
  | getMessages sid channelId =>
    simp only [step]
    split_ifs
    · rw [onGetMessages_state]; exact h
    · exact h
  | signaling sid sig =>
    simp only [step]
    split_ifs
    · rw [handleSignaling_state]; exact h
    · exact h
  | disconnect sid =>
    simp only [step]
    split_ifs
    · cases hu : socketUser st sid with
      | none =>
        obtain ⟨hdb, hmap, _⟩ := onDisconnect_unauthenticated st env sid hu
        intro k hk
        rw [hmap] at hk
        rw [hdb]
        exact h k hk
      | some user =>
        have hf1 : env.faults.updateUserStatus = false := by rw [henv]; rfl
        have hf2 : env.faults.getOnlineUsers = false := by rw [henv]; rfl
        rw [onDisconnect_ok st env sid user hu hf1 hf2]
        intro k hk
        obtain ⟨hne, hk2⟩ := mapHas_mapDelete _ _ _ hk
        exact onlineInStore_updateUserStatus_other st.db env.now user.id k "offline" hne
          (h k hk2)
    · exact h

theorem run_registryOnline (trace : List (Env × Event)) :
    ∀ st : ServerState, (∀ e ∈ trace, e.1.faults = Faults.none) → RegistryOnline st →
      RegistryOnline (run st trace) := by
  induction trace with
  | nil => intro st _ h; exact h
  | cons e rest ih =>
    intro st hall h
    exact ih _ (fun x hx => hall x (List.mem_cons_of_mem _ hx))
      (step_registryOnline st e.1 e.2 (hall e (List.mem_cons_self _ _)) h)

theorem registryOnline_of_workingReachable (st : ServerState) (h : WorkingReachable st) :
    RegistryOnline st := by
  obtain ⟨trace, hall, rfl⟩ := h
  refine run_registryOnline trace ServerState.init hall ?_
  intro k hk
  simp [ServerState.init, mapHas, mapGet] at hk

/-- With a working store, a `users-update` payload emitted by `authenticate`
or `disconnect` is the presence query on the store the handler leaves. -/
theorem usersUpdate_payload_working (st : ServerState) (env : Env) (ev : Event)
    (henv : env.faults = Faults.none) (hev : ev.isAuthenticateOrDisconnect = true)
    (d : Delivery) (l : List OnlineUser) (hd : d ∈ (step st env ev).out)
    (hp : d.payload = .usersUpdate l) :
    l = getOnlineUsers (step st env ev).state.db := by
  cases ev with
  | authenticate sid username =>
    simp only [step] at hd ⊢
    split_ifs at hd ⊢
    · cases hfind : findUser st.db username with
      | none =>
        rw [(onAuthenticate_unknown st env sid username hfind).2] at hd
        exact absurd hd (List.not_mem_nil _)
      | some user =>
        obtain ⟨hdb, _, hout⟩ := onAuthenticate_working st env sid username user henv hfind
        rw [hdb]
        exact hout d hd l hp
    · exact absurd hd (List.not_mem_nil _)
  | disconnect sid =>
    simp only [step] at hd ⊢
    split_ifs at hd ⊢
    · cases hu : socketUser st sid with
      | none =>
        rw [(onDisconnect_unauthenticated st env sid hu).2.2] at hd
        exact absurd hd (List.not_mem_nil _)
      | some user =>
        have hf1 : env.faults.updateUserStatus = false := by rw [henv]; rfl
        have hf2 : env.faults.getOnlineUsers = false := by rw [henv]; rfl
        rw [onDisconnect_ok st env sid user hu hf1 hf2] at hd ⊢
        simp only [List.mem_map] at hd
        obtain ⟨t, _, rfl⟩ := hd
        simp only [Payload.usersUpdate.injEq] at hp
        exact hp.symm
    · exact absurd hd (List.not_mem_nil _)
  | register username password => simp [Event.isAuthenticateOrDisconnect] at hev
  | login username password => simp [Event.isAuthenticateOrDisconnect] at hev
  | connection sid => simp [Event.isAuthenticateOrDisconnect] at hev
  | sendMessage sid data => simp [Event.isAuthenticateOrDisconnect] at hev
  | createChannel sid data => simp [Event.isAuthenticateOrDisconnect] at hev
  | getMessages sid channelId => simp [Event.isAuthenticateOrDisconnect] at hev
  | signaling sid sig => simp [Event.isAuthenticateOrDisconnect] at hev

/-- C15 as stated fails in a state reached with a working store.  After
`presenceTrace` account `bob` exists and has never opened a session.  When
`alice` disconnects from `h1` the map is empty, and the `users-update` sent
to `h2` lists `bob`: his row carries the column default `status = 'online'`. -/
theorem C15_never_connected_account_is_listed :
    WorkingReachable (run ServerState.init presenceTrace) ∧
    (step (run ServerState.init presenceTrace) env1 (.disconnect "h1")).out =
      [{ socketId := "h2", payload := .usersUpdate
          [{ id := 2, username := "bob", avatar := "default.png", status := "online" }] }] ∧
    (step (run ServerState.init presenceTrace) env1 (.disconnect "h1")).state.connectedUsers =
      [] := by
  refine ⟨⟨presenceTrace, by decide, rfl⟩, ?_, ?_⟩ <;> decide

/-- C15 (amended).  In every state reached with a working store, the
`users-update` payload emitted by an `authenticate` or a `disconnect` step
whose store calls resolve contains every identity that is a key of
`connectedUsers` right after the step.  (The payload is the set of accounts
whose stored status is not `offline`, so it can hold more.) -/
theorem C15_registry_keys_listed_in_presence (st : ServerState) (env : Env) (ev : Event)
    (d : Delivery) (l : List OnlineUser)
    (hreach : WorkingReachable st) (henv : env.faults = Faults.none)
    (hev : ev.isAuthenticateOrDisconnect = true)
    (hd : d ∈ (step st env ev).out) (hp : d.payload = .usersUpdate l) :
    ∀ k, mapHas (step st env ev).state.connectedUsers k = true → ∃ u ∈ l, u.id = k := by
  intro k hk
  have hinv := step_registryOnline st env ev henv (registryOnline_of_workingReachable st hreach)
  rw [usersUpdate_payload_working st env ev henv hev d l hd hp]
  exact mem_getOnlineUsers_of_onlineInStore _ k (hinv k hk)

/-- C15 (amended) after `twoUsersTrace`: `alice` disconnects from `h1`; the
payload `[bob]` covers the one remaining key, 2. -/
theorem C15_registry_keys_listed_in_presence_witness :
    mapHas (step (run ServerState.init twoUsersTrace) env1
        (.disconnect "h1")).state.connectedUsers 2 = true ∧
    ∃ u ∈ ([{ id := 2, username := "bob", avatar := "default.png", status := "online" }] :
      List OnlineUser), u.id = 2 :=
  ⟨by decide,
   C15_registry_keys_listed_in_presence (run ServerState.init twoUsersTrace) env1
    (.disconnect "h1")
    { socketId := "h2", payload := .usersUpdate
        [{ id := 2, username := "bob", avatar := "default.png", status := "online" }] }
    _
    ⟨twoUsersTrace, by decide, rfl⟩ rfl (by decide)
    (by
      have hout : (step (run ServerState.init twoUsersTrace) env1 (.disconnect "h1")).out =
          [{ socketId := "h2", payload := .usersUpdate
              [{ id := 2, username := "bob", avatar := "default.png",
                 status := "online" }] }] := by decide
      rw [hout]
      exact List.mem_cons_self _ _)
    rfl 2 (by decide)⟩

end Messenger
